import Mathlib

/-!
# Verification of the UtubeVidSummary job-orchestration runtime

A shallow embedding, in Lean 4, of the task-state tracker, the in-process
TTL cache, the retry executor, and the fetch/fan-out pipeline of the
repository, together with proofs settling the frozen claims about it.

Sources embedded (file, class/function):
* `src/app/utils/cache_manager.py`, `CacheManager` (in-process backend)
* `src/utils/progress_tracker.py`, `ProgressTracker`
* `src/routes/api_routes.py`, `task_status` and `submit_task`
* `src/models/video_model.py`, `VideoModel._retry_with_backoff`,
  `VideoModel.fetch_transcript_with_info`, `VideoModel._filter_transcript_by_time`
* `src/controllers/video_controller.py`, `VideoController.process_video`,
  `VideoController.process_video_or_playlist`
* `src/app/controllers/video_controller.py`, `VideoController._process_playlist`
* `src/services/task_manager.py`, `background_task_runner`

Modelling conventions:
* Python `float` time values are modelled as exact rationals (`ℚ`); where a
  claim depends on IEEE-754 double rounding (the progress-percentage
  computation) the binary64 rounding itself is modelled exactly over `ℚ`.
* Python dictionaries holding a fixed set of keys become structures; a key
  that can be absent or `None` becomes an `Option` field (nothing in the
  embedded code distinguishes an absent key from a key stored as `None`).
* `pickle.dumps`/`pickle.loads` round-trip every value unchanged, so cache
  values are stored unserialized; `pickle.dumps` never yields falsy bytes,
  so the `if value else None` guard of `get_cached_data` is the identity.
-/

namespace UVS

/-! ## Python truthiness helpers -/

/-- Truthiness of an optional string: `None` and `""` are falsy. -/
def pyTruthyOptStr : Option String → Bool
  | none => false
  | some s => !s.isEmpty

/-- Truthiness of an optional list: `None` and `[]` are falsy. -/
def pyTruthyOptList {α : Type} : Option (List α) → Bool
  | none => false
  | some l => !l.isEmpty

/-- Python `x or default` for an optional string `x`. -/
def pyOrStr (o : Option String) (default : String) : String :=
  match o with
  | none => default
  | some s => if s = "" then default else s

/-! ## CacheManager — in-process backend
(`src/app/utils/cache_manager.py`).  The two dictionaries `_cache` and
`_cache_expiry` are modelled as maps from the namespaced key; the value
type is a parameter (pickle stores arbitrary values).  Wall-clock time
(`time.time()`) is passed in explicitly as `now`. -/

structure CacheState (α : Type) where
  cache : String → Option α
  expiry : String → Option ℚ
  defaultTtl : ℚ

/-- `CacheManager._get_namespaced_key`: `f"{namespace}:{key}"`. -/
def namespacedKey (ns key : String) : String := ns ++ ":" ++ key

/-- A cache with nothing stored (fresh in-process backend). -/
def emptyCache (α : Type) (defaultTtl : ℚ) : CacheState α :=
  { cache := fun _ => none, expiry := fun _ => none, defaultTtl := defaultTtl }

/-- `CacheManager.set_cached_data` (in-process branch): store the value and
set the expiry to `now + actual_ttl`. -/
def setCachedData {α : Type} (s : CacheState α) (now : ℚ) (ns key : String)
    (value : α) (ttlSeconds : Option ℚ) : CacheState α :=
  let actualTtl := ttlSeconds.getD s.defaultTtl
  let nk := namespacedKey ns key
  { s with
    cache := fun k => if k = nk then some value else s.cache k
    expiry := fun k => if k = nk then some (now + actualTtl) else s.expiry k }

/-- `CacheManager.get_cached_data` (in-process branch): if the key has an
expiry and `time.time() > expiry`, delete the entry from both maps and
return `None`; otherwise return `_cache.get(key)`. -/
def getCachedData {α : Type} (s : CacheState α) (now : ℚ) (ns key : String) :
    Option α × CacheState α :=
  let nk := namespacedKey ns key
  match s.expiry nk with
  | some exp =>
      if now > exp then
        (none,
          { s with
            cache := fun k => if k = nk then none else s.cache k
            expiry := fun k => if k = nk then none else s.expiry k })
      else (s.cache nk, s)
  | none => (s.cache nk, s)

/-- `CacheManager.delete_cached_data` (in-process branch). -/
def deleteCachedData {α : Type} (s : CacheState α) (ns key : String) : CacheState α :=
  let nk := namespacedKey ns key
  { s with
    cache := fun k => if k = nk then none else s.cache k
    expiry := fun k => if k = nk then none else s.expiry k }

/-! ## Exact model of IEEE-754 binary64 arithmetic over `ℚ`

`task_status` computes `int((completed_items / total_items) * 100)` in
Python floats.  CPython divides two ints as a correctly rounded binary64
division and multiplies doubles with correct rounding, so both steps are
"exact rational result, then round to nearest double, ties to even".  We
model a (normal-range, non-overflowing) double as the rational it denotes
and implement that rounding exactly.  All values this development
evaluates are far inside the normal range, so neither subnormals nor
overflow are modelled. -/

def twoPow52 : ℚ := 4503599627370496
def twoPow53 : ℚ := 9007199254740992

/-- Scale a positive rational by powers of two into `[2^52, 2^53)`,
returning the scaled value and the (negated) exponent used.  Fuel-bounded
structural recursion; 5000 steps cover the whole double range and far
beyond every value in this file. -/
def normalizeB64 : ℕ → ℚ → ℤ → ℚ × ℤ
  | 0, s, k => (s, k)
  | fuel + 1, s, k =>
      if s < twoPow52 then normalizeB64 fuel (s * 2) (k + 1)
      else if twoPow53 ≤ s then normalizeB64 fuel (s / 2) (k - 1)
      else (s, k)

/-- Round a rational to the nearest integer, ties to even. -/
def roundHalfEven (s : ℚ) : ℤ :=
  let f := ⌊s⌋
  let r := s - (f : ℚ)
  if r < 1 / 2 then f
  else if 1 / 2 < r then f + 1
  else if f % 2 = 0 then f else f + 1

/-- Round a rational to the nearest binary64 value (normal range). -/
def roundB64 (q : ℚ) : ℚ :=
  if q = 0 then 0
  else
    let sgn : ℚ := if q < 0 then -1 else 1
    let p := normalizeB64 5000 |q| 0
    sgn * (roundHalfEven p.1 : ℚ) / (2 : ℚ) ^ p.2

/-- Binary64 division: correctly rounded rational quotient. -/
def fdiv64 (a b : ℚ) : ℚ := roundB64 (a / b)

/-- Binary64 multiplication: correctly rounded rational product. -/
def fmul64 (a b : ℚ) : ℚ := roundB64 (a * b)

/-- Python `int(x)` on a float: truncation toward zero. -/
def pyInt (q : ℚ) : ℤ := if 0 ≤ q then ⌊q⌋ else -(⌊-q⌋)

/-! ## Data model: task records and job results -/

/-- One element of a task record's `errors` list
(`ProgressTracker.update_progress` / `_update_task_status`). -/
structure ErrorEntry where
  item_details : String
  error : String
  timestamp : ℚ
deriving DecidableEq, Repr

/-- `VideoController._build_video_data`: one per-item result slot. -/
structure VideoData where
  id : String
  title : String
  url : String
  transcript : Option String
  summary_markdown : Option String
  error : Option String
deriving DecidableEq, Repr

/-- The dictionary `process_video` / `_process_playlist` return and
`background_task_runner` inspects.  `error = none` models the `"error"`
key being absent or `None` (the runner's test
`"error" in result and result["error"]` cannot tell those apart).
In the playlist path the pre-sized slots start as Python `None`, hence
`videos : List (Option VideoData)`. -/
structure ProcResult where
  is_playlist : Bool
  playlist_title : Option String
  videos : List (Option VideoData)
  error : Option String
deriving DecidableEq, Repr

/-- A task record as `ProgressTracker.initialize_progress` creates it.
`description`, `current_item_details`, `start_time` are `Option` because
the fallback record of `_update_task_status` omits those keys.  The
status is kept as the literal Python string. -/
structure TaskRecord where
  task_id : String
  description : Option String
  total_items : ℤ
  completed_items : ℤ
  current_item_details : Option String
  status : String
  start_time : Option ℚ
  last_update : ℚ
  errors : List ErrorEntry
  result : Option ProcResult
deriving DecidableEq, Repr

/-! ## ProgressTracker (`src/utils/progress_tracker.py`)

Each operation reads/writes the shared cache under the `progress`
namespace.  `datetime.now()` timestamps are modelled by the same clock
value `now` that drives cache expiry. -/

def progressNamespace : String := "progress"

/-- `ProgressTracker.initialize_progress`: unconditionally store a fresh
record (status `pending`, zero counters, empty errors, no result). -/
def initializeProgress (s : CacheState TaskRecord) (now : ℚ) (taskId : String)
    (totalItems : ℤ) (description : String) : CacheState TaskRecord :=
  setCachedData s now progressNamespace taskId
    { task_id := taskId
      description := some description
      total_items := totalItems
      completed_items := 0
      current_item_details := some ""
      status := "pending"
      start_time := some now
      last_update := now
      errors := []
      result := none } none

/-- The pure record transformation `update_progress` applies to an
existing record: force `in_progress`, bump the counter, optionally set
the details string, refresh `last_update`, and append an error entry when
`item_error` is truthy. -/
def updatedRecord (d : TaskRecord) (now : ℚ) (completedIncrement : ℤ)
    (currentItemDetails : Option String) (itemError : Option String) : TaskRecord :=
  let d1 := { d with
    status := "in_progress"
    completed_items := d.completed_items + completedIncrement }
  let d2 := match currentItemDetails with
    | some c => { d1 with current_item_details := some c }
    | none => d1
  let d3 := { d2 with last_update := now }
  if pyTruthyOptStr itemError then
    { d3 with errors := d3.errors ++
        [{ item_details := pyOrStr currentItemDetails "Unknown item"
           error := itemError.getD ""
           timestamp := now }] }
  else d3

/-- `ProgressTracker.update_progress`: read the record (a no-op when it
is absent), apply `updatedRecord`, write it back. -/
def updateProgress (s : CacheState TaskRecord) (now : ℚ) (taskId : String)
    (completedIncrement : ℤ) (currentItemDetails : Option String)
    (itemError : Option String) : CacheState TaskRecord :=
  match getCachedData s now progressNamespace taskId with
  | (none, s1) => s1
  | (some d, s1) =>
      setCachedData s1 now progressNamespace taskId
        (updatedRecord d now completedIncrement currentItemDetails itemError) none

/-- `ProgressTracker.get_progress` (value and post-read cache state). -/
def getProgress (s : CacheState TaskRecord) (now : ℚ) (taskId : String) :
    Option TaskRecord × CacheState TaskRecord :=
  getCachedData s now progressNamespace taskId

/-- The value `get_progress` returns. -/
def getProgressVal (s : CacheState TaskRecord) (now : ℚ) (taskId : String) :
    Option TaskRecord :=
  (getCachedData s now progressNamespace taskId).1

/-- `ProgressTracker._update_task_status`: read the record, fall back to a
minimal one when absent, force the status, optionally set the result,
optionally append an overall-task error, write back. -/
def updateTaskStatus (s : CacheState TaskRecord) (now : ℚ) (taskId : String)
    (status : String) (result : Option ProcResult) (errorMessage : Option String) :
    CacheState TaskRecord :=
  let read := getCachedData s now progressNamespace taskId
  let d0 : TaskRecord := match read.1 with
    | some d => d
    | none =>
        { task_id := taskId, description := none, total_items := 0
          completed_items := 0, current_item_details := none, status := status
          start_time := none, last_update := now, errors := [], result := none }
  let d1 := { d0 with status := status, last_update := now }
  let d2 := match result with
    | some r => { d1 with result := some r }
    | none => d1
  let d3 := if pyTruthyOptStr errorMessage then
      { d2 with errors := d2.errors ++
          [{ item_details := "Overall task", error := errorMessage.getD ""
             timestamp := now }] }
    else d2
  setCachedData read.2 now progressNamespace taskId d3 none

/-- `ProgressTracker.mark_task_completed`. -/
def markTaskCompleted (s : CacheState TaskRecord) (now : ℚ) (taskId : String)
    (result : ProcResult) : CacheState TaskRecord :=
  updateTaskStatus s now taskId "completed" (some result) none

/-- `ProgressTracker.mark_task_failed`. -/
def markTaskFailed (s : CacheState TaskRecord) (now : ℚ) (taskId : String)
    (error : String) : CacheState TaskRecord :=
  updateTaskStatus s now taskId "failed" none (some error)

/-! ## The `task_status` route (`src/routes/api_routes.py`, lines 66-91) -/

/-- The percentage computation of the route: `0`, overwritten by
`int((completed_items / total_items) * 100)` when `total_items > 0` —
a binary64 computation in the source. -/
def progressPercentage (totalItems completedItems : ℤ) : ℤ :=
  if totalItems > 0 then pyInt (fmul64 (fdiv64 (completedItems : ℚ) (totalItems : ℚ)) 100)
  else 0

/-- The status snapshot the route serves for a stored task record. -/
structure StatusSnapshot where
  task_id : String
  status : String
  progress_percentage : ℤ
  total_items : ℤ
  completed_items : ℤ
  current_item_details : String
  result : Option ProcResult
  errors : List ErrorEntry
deriving DecidableEq, Repr

/-- `task_status` applied to a stored record (the route's 404/pending
answer for an absent record is not part of the snapshot). -/
def taskStatusSnapshot (taskId : String) (r : TaskRecord) : StatusSnapshot :=
  { task_id := taskId
    status := r.status
    progress_percentage := progressPercentage r.total_items r.completed_items
    total_items := r.total_items
    completed_items := r.completed_items
    current_item_details := r.current_item_details.getD ""
    result := if r.status = "completed" then r.result else none
    errors := r.errors }

/-! ## RetryExecutor (`VideoModel._retry_with_backoff`)

The fallible operation is modelled as a map from the attempt index to its
outcome; `retryable e` models membership of the raised exception in
`errors_to_retry`.  The model returns the Python return value
(`Except.ok (some v)` for a successful call, `Except.ok none` for the
loop falling off its end — only possible when `max_retries = 0` — and
`Except.error e` for a raised exception) together with the number of
calls made to the operation.  The backoff sleeps have no observable
effect on the result and are not modelled. -/

def retryAttempts {E A : Type} (op : ℕ → Except E A) (retryable : E → Bool)
    (maxRetries : ℕ) : ℕ → ℕ → Except E (Option A) × ℕ
  | 0, _ => (Except.ok none, 0)
  | fuel + 1, attempt =>
      match op attempt with
      | Except.ok v => (Except.ok (some v), 1)
      | Except.error e =>
          if retryable e then
            if attempt = maxRetries - 1 then (Except.error e, 1)
            else
              let r := retryAttempts op retryable maxRetries fuel (attempt + 1)
              (r.1, r.2 + 1)
          else (Except.error e, 1)

/-- `_retry_with_backoff(func, max_retries, ...)`: the loop
`for attempt in range(max_retries)`. -/
def retryWithBackoff {E A : Type} (op : ℕ → Except E A) (retryable : E → Bool)
    (maxRetries : ℕ) : Except E (Option A) × ℕ :=
  retryAttempts op retryable maxRetries maxRetries 0

/-- `MAX_RETRIES` (src/constants.py). -/
def MAX_RETRIES : ℕ := 3

/-! ## FetchPipeline (`VideoModel.fetch_transcript_with_info`)

The three upstream calls are modelled as outcome parameters:
`apiFetch i` is what `_fetch_transcript_from_api` would do on its i-th
invocation (`Except.ok none` models it returning a falsy value), and
`infoFetch` what `get_video_info` (the oEmbed path) would return.  URL
parsing and the third-party client objects are outside the modelled core
(spec §1 treats them as external collaborators). -/

/-- One transcript entry `{'text': ..., 'start': ...}`. -/
structure Entry where
  text : String
  start : ℚ
deriving DecidableEq, Repr

/-- Per-source-id metadata (`get_video_info` / placeholder shape).
Optional fields are keys the placeholder record does not carry. -/
structure VideoInfo where
  id : String
  title : String
  url : String
  duration : ℚ
  webpage_url : Option String := none
  description : Option String := none
  uploader : Option String := none
deriving DecidableEq, Repr

/-- What the `transcripts` cache namespace stores (pickle keeps the three
kinds apart by the shape of the stored object; the key prefixes
`info_` / `slice_` keep them apart in the model too). -/
inductive TransVal where
  | transcriptVal (entries : List Entry)
  | infoVal (info : VideoInfo)
  | sliceVal (text : String)
deriving DecidableEq, Repr

def TransVal.asTranscript : TransVal → Option (List Entry)
  | .transcriptVal l => some l
  | _ => none

def TransVal.asInfo : TransVal → Option VideoInfo
  | .infoVal i => some i
  | _ => none

def TransVal.asSlice : TransVal → Option String
  | .sliceVal t => some t
  | _ => none

def transcriptsNamespace : String := "transcripts"

/-- `f"https://www.youtube.com/watch?v={video_id}"`. -/
def watchUrl (videoId : String) : String :=
  "https://www.youtube.com/watch?v=" ++ videoId

/-- The fallback metadata record built when the info thread produced
nothing (lines 235-240 of `src/models/video_model.py`). -/
def placeholderInfo (videoId : String) : VideoInfo :=
  { id := videoId
    title := "Video " ++ videoId
    url := watchUrl videoId
    duration := 0 }

/-- The `int(...)`-or-`'None'` component of the slice cache key. -/
def optTimeKey : Option ℚ → String
  | none => "None"
  | some q => toString (pyInt q)

/-- The slice cache key
`f"slice_{video_id}_{start_key}_{end_key}"`, built only when a window
bound was given. -/
def sliceKeyFor (videoId : String) (startTime endTime : Option ℚ) : Option String :=
  if startTime.isSome || endTime.isSome then
    some ("slice_" ++ videoId ++ "_" ++ optTimeKey startTime ++ "_" ++ optTimeKey endTime)
  else none

/-- `VideoModel._filter_transcript_by_time`: keep the entries whose start
offset is inside the inclusive window, join their texts with single
spaces.  (`None` input returns `""`; the `isinstance(str)` branch of the
source is dead code since the yt-dlp removal — every producer yields
entry lists — and is not modelled.) -/
def filterTranscriptByTime (transcriptData : Option (List Entry))
    (startTime endTime : Option ℚ) : String :=
  match transcriptData with
  | none => ""
  | some entries =>
      let filteredEntries := entries.filter fun e =>
        (match startTime with | none => true | some s => decide (e.start ≥ s)) &&
        (match endTime with | none => true | some t => decide (e.start ≤ t))
      String.intercalate " " (filteredEntries.map (·.text))

/-- The branch of `fetch_transcript_with_info` that runs when the
slice-and-info fast path and the transcript-and-info cached path both
missed (source lines 187-252): spawn the info fetch, fetch the
transcript (under `_retry_with_backoff`, every exception retryable),
fail if it stays falsy, cache it, join the info thread, substitute the
placeholder on a missing info value, derive and cache the slice.
The info thread's cache write (concurrent in the source, joined before
return; its key is disjoint from every key the main path touches) is
applied at spawn time. -/
def fetchMissPath (useApi : Bool) (sliceTtl : ℚ)
    (apiFetch : ℕ → Except String (Option (List Entry)))
    (infoFetch : Except String VideoInfo)
    (now : ℚ) (videoId : String) (startTime endTime : Option ℚ)
    (cachedTranscript : Option (List Entry)) (cachedInfo : Option VideoInfo)
    (st : CacheState TransVal) :
    Except String (String × VideoInfo) × CacheState TransVal :=
  let infoCacheKey := "info_" ++ videoId
  let infoRes : Option VideoInfo := match infoFetch with
    | Except.ok i => some i
    | Except.error _ => none
  let st1 := if cachedInfo.isNone then
      match infoFetch with
      | Except.ok i =>
          setCachedData st now transcriptsNamespace infoCacheKey
            (TransVal.infoVal i) (some (3600 * 24))
      | Except.error _ => st
    else st
  let transcriptData : Option (List Entry) :=
    if pyTruthyOptList cachedTranscript then cachedTranscript
    else if useApi then
      match (retryWithBackoff apiFetch (fun _ => true) MAX_RETRIES).1 with
      | Except.ok v => v.join
      | Except.error _ => none
    else none
  if pyTruthyOptList transcriptData then
    let entries := transcriptData.getD []
    let st2 := if pyTruthyOptList cachedTranscript then st1
      else setCachedData st1 now transcriptsNamespace videoId
        (TransVal.transcriptVal entries) (some (30 * 24 * 3600))
    let joined : VideoInfo × CacheState TransVal :=
      match cachedInfo with
      | some i => (i, st2)
      | none =>
          match infoRes with
          | some i => (i, st2)
          | none =>
              (placeholderInfo videoId,
               setCachedData st2 now transcriptsNamespace infoCacheKey
                 (TransVal.infoVal (placeholderInfo videoId)) (some 300))
    let filtered := filterTranscriptByTime (some entries) startTime endTime
    let st3 := match sliceKeyFor videoId startTime endTime with
      | some sk =>
          if filtered ≠ "" then
            setCachedData joined.2 now transcriptsNamespace sk
              (TransVal.sliceVal filtered) (some sliceTtl)
          else joined.2
      | none => joined.2
    (Except.ok (filtered, joined.1), st3)
  else
    (Except.error ("Failed to fetch transcript for " ++ videoId), st1)

/-- `VideoModel.fetch_transcript_with_info` (source lines 155-252). -/
def fetchTranscriptWithInfo (useApi : Bool) (sliceTtl : ℚ)
    (apiFetch : ℕ → Except String (Option (List Entry)))
    (infoFetch : Except String VideoInfo)
    (st : CacheState TransVal) (now : ℚ)
    (videoId : String) (startTime endTime : Option ℚ) :
    Except String (String × VideoInfo) × CacheState TransVal :=
  if videoId = "" then (Except.error "Invalid video ID", st)
  else
    let r1 := getCachedData st now transcriptsNamespace videoId
    let cachedTranscript : Option (List Entry) := r1.1.bind TransVal.asTranscript
    let r2 := getCachedData r1.2 now transcriptsNamespace ("info_" ++ videoId)
    let cachedInfo : Option VideoInfo := r2.1.bind TransVal.asInfo
    let r3 := match sliceKeyFor videoId startTime endTime with
      | some sk => getCachedData r2.2 now transcriptsNamespace sk
      | none => (none, r2.2)
    let cachedSlice : Option String := r3.1.bind TransVal.asSlice
    let st0 := r3.2
    match cachedSlice, cachedInfo with
    | some sliceText, some info =>
        if sliceText = "" then
          -- falsy cached slice: fall through exactly as `if cached_slice and cached_info` does
          fetchCachedOrMiss useApi sliceTtl apiFetch infoFetch now videoId
            startTime endTime cachedTranscript (some info) st0
        else (Except.ok (sliceText, info), st0)
    | _, _ =>
        fetchCachedOrMiss useApi sliceTtl apiFetch infoFetch now videoId
          startTime endTime cachedTranscript cachedInfo st0
where
  /-- Source lines 176-252: the `cached_transcript and cached_info`
  branch, else the full miss path. -/
  fetchCachedOrMiss (useApi : Bool) (sliceTtl : ℚ)
      (apiFetch : ℕ → Except String (Option (List Entry)))
      (infoFetch : Except String VideoInfo)
      (now : ℚ) (videoId : String) (startTime endTime : Option ℚ)
      (cachedTranscript : Option (List Entry)) (cachedInfo : Option VideoInfo)
      (st : CacheState TransVal) :
      Except String (String × VideoInfo) × CacheState TransVal :=
    match cachedTranscript, cachedInfo with
    | some entries, some info =>
        if entries.isEmpty then
          fetchMissPath useApi sliceTtl apiFetch infoFetch now videoId
            startTime endTime (some entries) (some info) st
        else
          let filtered := filterTranscriptByTime (some entries) startTime endTime
          let st2 := match sliceKeyFor videoId startTime endTime with
            | some sk =>
                if filtered ≠ "" then
                  setCachedData st now transcriptsNamespace sk
                    (TransVal.sliceVal filtered) (some sliceTtl)
                else st
            | none => st
          (Except.ok (filtered, info), st2)
    | _, _ =>
        fetchMissPath useApi sliceTtl apiFetch infoFetch now videoId
          startTime endTime cachedTranscript cachedInfo st

/-! ## TaskRunner, single-item mode
(`VideoController.process_video`, `process_video_or_playlist`,
`background_task_runner` of the flat layout).  `summarize` models the
outcome of `VideoModel.summarize_text` on the given text and custom
prompt; `urlIsValidYoutube` and `extractVideoId` model
`is_valid_youtube_url` / `extract_video_id` (URL parsing is outside the
specified core). -/

/-- `VideoController._build_video_data`. -/
def buildVideoData (videoId title url : String)
    (transcript summary error : Option String) : VideoData :=
  { id := videoId, title := title, url := url, transcript := transcript
    summary_markdown := summary, error := error }

/-- The combined mutable state the single-item flow touches: the
`progress` and `transcripts` namespaces of the shared cache manager
(the key sets of the two namespaces are disjoint, so they are modelled
as two typed stores). -/
structure AppState where
  prog : CacheState TaskRecord
  trans : CacheState TransVal

/-- `VideoController.process_video` (source lines 54-83): resolve, then
summarize when the transcript is nonempty; any `VideoModelError` or
`VideoControllerError` becomes an error-bearing slot; the returned
dictionary never has a top-level `"error"` key. -/
def processVideo (useApi : Bool) (sliceTtl : ℚ)
    (apiFetch : ℕ → Except String (Option (List Entry)))
    (infoFetch : Except String VideoInfo)
    (summarize : String → Option String → Except String String)
    (st : CacheState TransVal) (now : ℚ)
    (videoId : String) (customPrompt : Option String)
    (startTime endTime : Option ℚ) : ProcResult × CacheState TransVal :=
  match fetchTranscriptWithInfo useApi sliceTtl apiFetch infoFetch st now videoId startTime endTime with
  | (Except.ok (transcript, info), st1) =>
      let title := info.title
      let url := info.webpage_url.getD info.url
      if transcript ≠ "" then
        match summarize transcript customPrompt with
        | Except.ok summary =>
            ({ is_playlist := false, playlist_title := none
               videos := [some (buildVideoData videoId title url (some transcript) (some summary) none)]
               error := none }, st1)
        | Except.error e =>
            -- summarize_text raised: caught by the same except clause
            ({ is_playlist := false, playlist_title := none
               videos := [some (buildVideoData videoId ("Video " ++ videoId) (watchUrl videoId) none none (some e))]
               error := none }, st1)
      else
        ({ is_playlist := false, playlist_title := none
           videos := [some (buildVideoData videoId title url (some transcript) none none)]
           error := none }, st1)
  | (Except.error e, st1) =>
      ({ is_playlist := false, playlist_title := none
         videos := [some (buildVideoData videoId ("Video " ++ videoId) (watchUrl videoId) none none (some e))]
         error := none }, st1)

/-- Mark the task failed when a task id and tracker instance were given
(`if task_id and progress_tracker_instance`; the empty string is falsy). -/
def markFailedIfTid (prog : CacheState TaskRecord) (now : ℚ)
    (taskId : Option String) (msg : String) : CacheState TaskRecord :=
  match taskId with
  | some tid => if tid ≠ "" then markTaskFailed prog now tid msg else prog
  | none => prog

/-- `VideoController.process_video_or_playlist` of the flat layout
(source lines 84-123; `is_playlist_url` always returns `False` there, so
the playlist branch does not exist): validation, then `process_video`;
controller/model errors raised before `process_video` mark the task
failed and return a dictionary whose `"error"` key is set. -/
def processVideoOrPlaylist (useApi : Bool) (sliceTtl : ℚ)
    (apiFetch : ℕ → Except String (Option (List Entry)))
    (infoFetch : Except String VideoInfo)
    (summarize : String → Option String → Except String String)
    (urlIsValidYoutube : Bool) (extractVideoId : Except String String)
    (app : AppState) (now : ℚ)
    (url : String) (customPrompt : Option String) (taskId : Option String)
    (startTime endTime : Option ℚ) : ProcResult × AppState :=
  let fail : String → ProcResult × AppState := fun msg =>
    ({ is_playlist := false, playlist_title := none, videos := [], error := some msg },
     { app with prog := markFailedIfTid app.prog now taskId msg })
  if url = "" then fail "Invalid URL: URL must be a non-empty string."
  else if (match customPrompt with
           | some p => decide (p.length > 2000)
           | none => false) then
    fail "Custom prompt is too long (max 2000 characters)."
  else if ¬ urlIsValidYoutube then fail "Invalid YouTube URL provided."
  else
    match extractVideoId with
    | Except.error e => fail e
    | Except.ok videoId =>
        let r := processVideo useApi sliceTtl apiFetch infoFetch summarize
          app.trans now videoId customPrompt startTime endTime
        (r.1, { app with trans := r.2 })

/-- The tail of `background_task_runner` (both layouts, identical): mark
failed when the result carries a truthy `"error"` and the task is not
failed yet, otherwise mark completed with the result.  (The source reads
the status with `.get('status')` on the raw record; an absent record
would raise `AttributeError`, caught by `except Exception` — the literal
message of that model branch stands in for the interpolated Python
exception text.) -/
def taskRunnerFinalize (prog : CacheState TaskRecord) (now : ℚ)
    (taskId : String) (result : ProcResult) : CacheState TaskRecord :=
  if pyTruthyOptStr result.error then
    match getProgress prog now taskId with
    | (some r, prog2) =>
        if r.status ≠ "failed" then markTaskFailed prog2 now taskId (result.error.getD "")
        else prog2
    | (none, prog2) =>
        markTaskFailed prog2 now taskId
          "An unexpected error occurred: NoneType object has no attribute get"
  else markTaskCompleted prog now taskId result

/-- `background_task_runner` (`src/services/task_manager.py`):
`initOk` models `VideoController()` succeeding. -/
def backgroundTaskRunner (useApi : Bool) (sliceTtl : ℚ)
    (apiFetch : ℕ → Except String (Option (List Entry)))
    (infoFetch : Except String VideoInfo)
    (summarize : String → Option String → Except String String)
    (urlIsValidYoutube : Bool) (extractVideoId : Except String String)
    (initOk : Bool) (app : AppState) (now : ℚ)
    (taskId url : String) (customPrompt : Option String)
    (startTime endTime : Option ℚ) : AppState :=
  if ¬ initOk then
    { app with prog := markTaskFailed app.prog now taskId "Service initialization error." }
  else
    let r := processVideoOrPlaylist useApi sliceTtl apiFetch infoFetch summarize
      urlIsValidYoutube extractVideoId app now url customPrompt (some taskId)
      startTime endTime
    { r.2 with prog := taskRunnerFinalize r.2.prog now taskId r.1 }

/-- `submit_task` (`src/routes/api_routes.py`, lines 43-63): the part
that touches the task store.  NOTE the order in the source: the job is
enqueued (line 45) BEFORE `initialize_progress` runs (line 58). -/
def submitTask (prog : CacheState TaskRecord) (now : ℚ) (taskId url : String) :
    CacheState TaskRecord :=
  initializeProgress prog now taskId 1 ("Processing URL: " ++ url)

/-- A complete single-item job in the normal interleaving: submit
initializes the store, then the enqueued job runs. -/
def singleJobRun (useApi : Bool) (sliceTtl : ℚ)
    (apiFetch : ℕ → Except String (Option (List Entry)))
    (infoFetch : Except String VideoInfo)
    (summarize : String → Option String → Except String String)
    (urlIsValidYoutube : Bool) (extractVideoId : Except String String)
    (now : ℚ) (taskId url : String) (customPrompt : Option String)
    (startTime endTime : Option ℚ) : AppState :=
  let app0 : AppState :=
    { prog := submitTask (emptyCache TaskRecord 3600) now taskId url
      trans := emptyCache TransVal 3600 }
  backgroundTaskRunner useApi sliceTtl apiFetch infoFetch summarize
    urlIsValidYoutube extractVideoId true app0 now taskId url customPrompt
    startTime endTime

/-! ## TaskRunner, multi-item mode
(`VideoController._process_playlist`, `src/app/controllers/video_controller.py`,
lines 112-195).  `process_single_video` catches every exception of
`self.process_video` (which itself never raises), so each item i yields
the slot value `itemResult i`; the worker pool completes the items in an
arbitrary order, modelled by the `completionOrder` list the `as_completed`
loop walks. -/

/-- The body of the `as_completed` loop: write the slot at the item's
original index, bump the counter, report progress with the item's error
forwarded. -/
def playlistLoop (taskId : Option String) (now : ℚ) (n : ℕ)
    (itemResult : ℕ → VideoData) :
    List ℕ → CacheState TaskRecord → List (Option VideoData) → ℕ →
    CacheState TaskRecord × List (Option VideoData) × ℕ
  | [], prog, slots, completedCount => (prog, slots, completedCount)
  | i :: rest, prog, slots, completedCount =>
      let vd := itemResult i
      let slots1 := slots.set i (some vd)
      let cc1 := completedCount + 1
      let prog1 := match taskId with
        | some tid =>
            if tid ≠ "" then
              updateProgress prog now tid 1
                (some ("Processed " ++ toString cc1 ++ "/" ++ toString n ++ " videos"))
                vd.error
            else prog
        | none => prog
      playlistLoop taskId now n itemResult rest prog1 slots1 cc1

/-- `VideoController._process_playlist`: get the playlist info
(`playlistInfo` models `get_playlist_info`, a yt-dlp call), re-initialize
the tracker with the real item count, pre-size the slots, run the pool,
return the ordered collection.  In the `VideoModelError` arm the source
first marks the task failed, then evaluates a dictionary referring to the
unassigned local `playlist_title`: the resulting `NameError` escapes to
`process_video_or_playlist`'s generic handler, which marks the task
failed again and returns its generic error dictionary — modelled
directly as that combined outcome. -/
def processPlaylist (itemResult : ℕ → VideoData)
    (playlistInfo : Except String (List String × String))
    (completionOrder : List ℕ)
    (prog : CacheState TaskRecord) (now : ℚ)
    (taskId : Option String) : ProcResult × CacheState TaskRecord :=
  match playlistInfo with
  | Except.error e =>
      ({ is_playlist := false, playlist_title := none, videos := []
         error := some "An unexpected error occurred during processing." },
       markFailedIfTid
         (markFailedIfTid prog now taskId e) now taskId
         "An unexpected error occurred: NameError")
  | Except.ok (videoIds, playlistTitle) =>
      if videoIds.isEmpty then
        -- raise VideoControllerError("No videos found in the playlist."),
        -- caught by `except Exception` of _process_playlist
        ({ is_playlist := true, playlist_title := some playlistTitle, videos := []
           error := some "An unexpected error occurred with the playlist." },
         markFailedIfTid prog now taskId "An unexpected error occurred with the playlist.")
      else
        let n := videoIds.length
        let prog1 := match taskId with
          | some tid =>
              if tid ≠ "" then
                initializeProgress prog now tid (n : ℤ)
                  ("Processing playlist: " ++ playlistTitle ++ " (" ++ toString n ++ " videos)")
              else prog
          | none => prog
        let r := playlistLoop taskId now n itemResult completionOrder prog1
          (List.replicate n none) 0
        ({ is_playlist := true, playlist_title := some playlistTitle
           videos := r.2.1, error := none }, r.1)

/-- A complete multi-item job in the normal interleaving (app layout:
`submit_task`, then `background_task_runner` reaching the playlist
branch of `process_video_or_playlist` with a valid nonempty playlist
URL). -/
def playlistJobRun (itemResult : ℕ → VideoData)
    (playlistInfo : Except String (List String × String))
    (completionOrder : List ℕ) (now : ℚ) (taskId url : String) :
    CacheState TaskRecord :=
  let prog0 := submitTask (emptyCache TaskRecord 3600) now taskId url
  let r := processPlaylist itemResult playlistInfo completionOrder prog0 now (some taskId)
  taskRunnerFinalize r.2 now taskId r.1

/-! ## Specification-side definitions and proof-support definitions -/

/-- The slice text as C10 words it: the concatenation, with single-space
separators and in the original entry order, of exactly those entries
whose start offset o satisfies (start absent or o ≥ start) and
(end absent or o ≤ end). -/
def sliceSpecText (entries : List Entry) (startW endW : Option ℚ) : String :=
  String.intercalate " "
    ((entries.filter fun e =>
        (startW.isNone || decide (startW.getD 0 ≤ e.start)) &&
        (endW.isNone || decide (e.start ≤ endW.getD 0))).map (·.text))

/-- The percentage exactly as C3 words it:
`floor(completed_items * 100 / total_items)`. -/
def specPercentage (totalItems completedItems : ℤ) : ℤ :=
  ⌊((completedItems : ℚ) * 100) / (totalItems : ℚ)⌋

/-- The record is stored, unexpired at `now`, and reading it does not
change the store. -/
def progressPresent (s : CacheState TaskRecord) (now : ℚ) (tid : String)
    (r : TaskRecord) : Prop :=
  getCachedData s now progressNamespace tid = (some r, s)

/-- A sequence of `update_progress` calls against one task id: each
element carries (increment, details, item_error). -/
def applyUpdates (now : ℚ) (tid : String) :
    CacheState TaskRecord → List (ℤ × Option String × Option String) →
    CacheState TaskRecord
  | s, [] => s
  | s, u :: rest => applyUpdates now tid (updateProgress s now tid u.1 u.2.1 u.2.2) rest

/-- The error entries the `as_completed` loop appends while walking
`order` with the loop counter starting at `cc`. -/
def loopErrors (itemResult : ℕ → VideoData) (now : ℚ) (n : ℕ) :
    List ℕ → ℕ → List ErrorEntry
  | [], _ => []
  | i :: rest, cc =>
      (if pyTruthyOptStr (itemResult i).error then
        [{ item_details := "Processed " ++ toString (cc + 1) ++ "/" ++ toString n ++ " videos"
           error := (itemResult i).error.getD ""
           timestamp := now }]
      else []) ++ loopErrors itemResult now n rest (cc + 1)

/-! ## Lemmas: the in-process cache -/

theorem setCachedData_defaultTtl {α : Type} (s : CacheState α) (now : ℚ)
    (ns k : String) (v : α) (ttl : Option ℚ) :
    (setCachedData s now ns k v ttl).defaultTtl = s.defaultTtl := rfl

theorem getCachedData_defaultTtl {α : Type} (s : CacheState α) (now : ℚ)
    (ns k : String) : (getCachedData s now ns k).2.defaultTtl = s.defaultTtl := by
  simp only [getCachedData]
  split <;> first | rfl | (split <;> rfl)

theorem getCachedData_set_same {α : Type} (s : CacheState α) (now now' : ℚ)
    (ns k : String) (v : α) (ttl : Option ℚ)
    (h : ¬ now' > now + ttl.getD s.defaultTtl) :
    getCachedData (setCachedData s now ns k v ttl) now' ns k =
      (some v, setCachedData s now ns k v ttl) := by
  simp [getCachedData, setCachedData, h]

theorem getCachedData_miss {α : Type} (s : CacheState α) (now : ℚ) (ns k : String)
    (hc : s.cache (namespacedKey ns k) = none)
    (he : s.expiry (namespacedKey ns k) = none) :
    getCachedData s now ns k = (none, s) := by
  simp [getCachedData, hc, he]

theorem setCachedData_cache_ne {α : Type} (s : CacheState α) (now : ℚ)
    (ns k : String) (v : α) (ttl : Option ℚ) (k' : String)
    (h : k' ≠ namespacedKey ns k) :
    (setCachedData s now ns k v ttl).cache k' = s.cache k' := by
  simp [setCachedData, h]

theorem setCachedData_expiry_ne {α : Type} (s : CacheState α) (now : ℚ)
    (ns k : String) (v : α) (ttl : Option ℚ) (k' : String)
    (h : k' ≠ namespacedKey ns k) :
    (setCachedData s now ns k v ttl).expiry k' = s.expiry k' := by
  simp [setCachedData, h]

/-- When a read returns a value, it took the non-evicting path, so the
post-read state is the pre-read state. -/
theorem getCachedData_some_state {α : Type} (s : CacheState α) (now : ℚ)
    (ns k : String) (v : α) (h : (getCachedData s now ns k).1 = some v) :
    getCachedData s now ns k = (some v, s) := by
  simp only [getCachedData] at h ⊢
  split at h
  next heq =>
      split at h
      · simp at h
      · simp_all
  next heq => simp_all

/-- Reading a key written by `set` returns exactly the written value or
nothing (never a different value). -/
theorem getCachedData_set_value {α : Type} (s : CacheState α) (now now' : ℚ)
    (ns k : String) (v w : α) (ttl : Option ℚ)
    (h : (getCachedData (setCachedData s now ns k v ttl) now' ns k).1 = some w) :
    w = v := by
  unfold getCachedData setCachedData at h
  simp at h
  split at h
  · simp at h
  · simp_all

/-! ## Lemmas: the progress tracker -/

theorem progressPresent_set (s : CacheState TaskRecord) (now : ℚ) (tid : String)
    (d : TaskRecord) (h : 0 ≤ s.defaultTtl) :
    progressPresent (setCachedData s now progressNamespace tid d none) now tid d := by
  unfold progressPresent
  apply getCachedData_set_same
  simp only [Option.getD]
  linarith

theorem updateProgress_of_present (s : CacheState TaskRecord) (now : ℚ)
    (tid : String) (r : TaskRecord) (inc : ℤ) (det err : Option String)
    (h : progressPresent s now tid r) :
    updateProgress s now tid inc det err =
      setCachedData s now progressNamespace tid (updatedRecord r now inc det err) none := by
  unfold updateProgress
  rw [h]

theorem markTaskCompleted_of_present (s : CacheState TaskRecord) (now : ℚ)
    (tid : String) (r : TaskRecord) (res : ProcResult)
    (h : progressPresent s now tid r) :
    markTaskCompleted s now tid res =
      setCachedData s now progressNamespace tid
        { r with status := "completed", last_update := now, result := some res } none := by
  unfold markTaskCompleted updateTaskStatus
  rw [h]
  rfl

theorem markTaskFailed_of_present (s : CacheState TaskRecord) (now : ℚ)
    (tid : String) (r : TaskRecord) (msg : String)
    (h : progressPresent s now tid r) (hmsg : msg ≠ "") :
    markTaskFailed s now tid msg =
      setCachedData s now progressNamespace tid
        { r with status := "failed", last_update := now
                 errors := r.errors ++ [{ item_details := "Overall task", error := msg, timestamp := now }] } none := by
  unfold markTaskFailed updateTaskStatus
  rw [h]
  have he : msg.isEmpty = false := by
    rw [Bool.eq_false_iff]
    intro hc
    exact hmsg ((String.isEmpty_iff msg).mp hc)
  simp [pyTruthyOptStr, he]

theorem updatedRecord_completed (r : TaskRecord) (now : ℚ) (inc : ℤ)
    (det err : Option String) :
    (updatedRecord r now inc det err).completed_items = r.completed_items + inc := by
  unfold updatedRecord
  cases det <;> cases h : pyTruthyOptStr err <;> simp [h]

theorem updatedRecord_status (r : TaskRecord) (now : ℚ) (inc : ℤ)
    (det err : Option String) :
    (updatedRecord r now inc det err).status = "in_progress" := by
  unfold updatedRecord
  cases det <;> cases h : pyTruthyOptStr err <;> simp [h]

theorem updatedRecord_total (r : TaskRecord) (now : ℚ) (inc : ℤ)
    (det err : Option String) :
    (updatedRecord r now inc det err).total_items = r.total_items := by
  unfold updatedRecord
  cases det <;> cases h : pyTruthyOptStr err <;> simp [h]

/-- An absent (or expired) record stays absent across `update_progress`. -/
theorem updateProgress_absent (s : CacheState TaskRecord) (now : ℚ) (tid : String)
    (inc : ℤ) (det err : Option String) (h : getProgressVal s now tid = none) :
    getProgressVal (updateProgress s now tid inc det err) now tid = none := by
  simp only [getProgressVal] at h
  simp only [updateProgress, getProgressVal]
  simp only [getCachedData] at h ⊢
  cases hE : s.expiry (namespacedKey progressNamespace tid) with
  | none =>
      simp only [hE] at h ⊢
      simp only [h, hE]
  | some exp =>
      by_cases hlt : now > exp
      · simp only [hE, if_pos hlt] at h ⊢
        simp
      · simp only [hE, if_neg hlt] at h ⊢
        simp only [h, hE, if_neg hlt]

theorem applyUpdates_absent (now : ℚ) (tid : String) :
    ∀ (us : List (ℤ × Option String × Option String)) (s : CacheState TaskRecord),
    getProgressVal s now tid = none →
    getProgressVal (applyUpdates now tid s us) now tid = none
  | [], _, h => h
  | u :: rest, s, h =>
      applyUpdates_absent now tid rest _
        (updateProgress_absent s now tid u.1 u.2.1 u.2.2 h)

/-- One `update_progress` against a stored record leaves either an
evicted store or exactly the updated record. -/
theorem updateProgress_getVal_of_some (s : CacheState TaskRecord) (now : ℚ)
    (tid : String) (r : TaskRecord) (inc : ℤ) (det err : Option String)
    (h : getProgressVal s now tid = some r) :
    getProgressVal (updateProgress s now tid inc det err) now tid = none ∨
    getProgressVal (updateProgress s now tid inc det err) now tid =
      some (updatedRecord r now inc det err) := by
  have hp : progressPresent s now tid r := getCachedData_some_state s now _ tid r h
  rw [updateProgress_of_present s now tid r inc det err hp]
  cases hv : (getCachedData (setCachedData s now progressNamespace tid
      (updatedRecord r now inc det err) none) now progressNamespace tid).1 with
  | none => exact Or.inl hv
  | some w =>
      right
      rw [getProgressVal, hv,
        getCachedData_set_value s now now progressNamespace tid _ w none hv]

/-- `_update_task_status` always writes a record with the forced status
(and the given result), whatever the store held. -/
theorem updateTaskStatus_writes (s : CacheState TaskRecord) (now : ℚ)
    (tid status : String) (res : ProcResult) :
    ∃ d : TaskRecord,
      updateTaskStatus s now tid status (some res) none =
        setCachedData (getCachedData s now progressNamespace tid).2 now
          progressNamespace tid d none ∧
      d.status = status ∧ d.result = some res := by
  simp only [updateTaskStatus]
  cases hv : (getCachedData s now progressNamespace tid).1 with
  | none =>
      refine ⟨{ task_id := tid, description := none, total_items := 0
                completed_items := 0, current_item_details := none, status := status
                start_time := none, last_update := now, errors := [], result := some res },
        ?_, rfl, rfl⟩
      simp [hv, pyTruthyOptStr]
  | some d0 =>
      refine ⟨{ d0 with status := status, last_update := now, result := some res },
        ?_, rfl, rfl⟩
      simp [hv, pyTruthyOptStr]

theorem updateTaskStatus_defaultTtl (s : CacheState TaskRecord) (now : ℚ)
    (tid status : String) (res : Option ProcResult) (msg : Option String) :
    (updateTaskStatus s now tid status res msg).defaultTtl = s.defaultTtl := by
  simp only [updateTaskStatus, setCachedData_defaultTtl]
  exact getCachedData_defaultTtl s now progressNamespace tid

/-- After `mark_task_completed` the stored record is completed and holds
the result. -/
theorem markTaskCompleted_getVal (s : CacheState TaskRecord) (now : ℚ)
    (tid : String) (res : ProcResult) (h : 0 ≤ s.defaultTtl) :
    ∃ d : TaskRecord,
      getProgressVal (markTaskCompleted s now tid res) now tid = some d ∧
      d.status = "completed" ∧ d.result = some res := by
  obtain ⟨d, hw, hs, hr⟩ := updateTaskStatus_writes s now tid "completed" res
  refine ⟨d, ?_, hs, hr⟩
  rw [markTaskCompleted, hw, getProgressVal]
  have h2 : (0:ℚ) ≤ (getCachedData s now progressNamespace tid).2.defaultTtl := by
    rw [getCachedData_defaultTtl]; exact h
  rw [progressPresent_set _ now tid d h2]

/-! ## Claim C2 — terminal states under `update_progress` -/

/-- C2 (amended): `update_progress` on any stored record — terminal or
not — performs a full read-modify-write that forces the stored status to
`in_progress`; it is not a no-op and does not preserve a terminal
status. -/
theorem c2_update_overwrites_terminal (s : CacheState TaskRecord) (now : ℚ)
    (tid : String) (r : TaskRecord) (inc : ℤ) (det err : Option String)
    (h : getProgressVal s now tid = some r) :
    updateProgress s now tid inc det err =
      setCachedData s now progressNamespace tid (updatedRecord r now inc det err) none ∧
    (updatedRecord r now inc det err).status = "in_progress" :=
  ⟨updateProgress_of_present s now tid r inc det err
      (getCachedData_some_state s now progressNamespace tid r h),
   updatedRecord_status r now inc det err⟩

/-- Witness for C2: a concrete store holding a completed record. -/
theorem c2_update_overwrites_terminal_witness :
    (updateProgress
        (setCachedData (emptyCache TaskRecord 3600) 0 progressNamespace "t"
          { task_id := "t", description := some "d", total_items := 1
            completed_items := 0, current_item_details := some "", status := "completed"
            start_time := some 0, last_update := 0, errors := []
            result := some { is_playlist := false, playlist_title := none, videos := [], error := none } } none)
        0 "t" 1 none none =
      setCachedData
        (setCachedData (emptyCache TaskRecord 3600) 0 progressNamespace "t"
          { task_id := "t", description := some "d", total_items := 1
            completed_items := 0, current_item_details := some "", status := "completed"
            start_time := some 0, last_update := 0, errors := []
            result := some { is_playlist := false, playlist_title := none, videos := [], error := none } } none)
        0 progressNamespace "t"
        (updatedRecord
          { task_id := "t", description := some "d", total_items := 1
            completed_items := 0, current_item_details := some "", status := "completed"
            start_time := some 0, last_update := 0, errors := []
            result := some { is_playlist := false, playlist_title := none, videos := [], error := none } } 0 1 none none) none) ∧
    (updatedRecord
      { task_id := "t", description := some "d", total_items := 1
        completed_items := 0, current_item_details := some "", status := "completed"
        start_time := some 0, last_update := 0, errors := []
        result := some { is_playlist := false, playlist_title := none, videos := [], error := none } } 0 1 none none).status = "in_progress" := by
  apply c2_update_overwrites_terminal
  rw [getProgressVal, progressPresent_set _ 0 "t" _ (by norm_num [emptyCache])]

/-- Counterexample to C2 as stated: after `mark_task_completed`, one more
`update_progress` leaves the stored status `in_progress`, not a terminal
value. -/
theorem c2_counterexample :
    (getProgressVal
        (updateProgress
          (markTaskCompleted (initializeProgress (emptyCache TaskRecord 3600) 0 "t" 1 "d") 0 "t"
            { is_playlist := false, playlist_title := none, videos := [], error := none })
          0 "t" 1 none none)
        0 "t").map (·.status) = some "in_progress" ∧
    (getProgressVal
        (updateProgress
          (markTaskCompleted (initializeProgress (emptyCache TaskRecord 3600) 0 "t" 1 "d") 0 "t"
            { is_playlist := false, playlist_title := none, videos := [], error := none })
          0 "t" 1 none none)
        0 "t").map (·.status) ≠ some "completed" := by
  have hfresh : progressPresent
      (initializeProgress (emptyCache TaskRecord 3600) 0 "t" 1 "d") 0 "t"
      { task_id := "t", description := some "d", total_items := 1
        completed_items := 0, current_item_details := some "", status := "pending"
        start_time := some 0, last_update := 0, errors := [], result := none } := by
    rw [initializeProgress]
    exact progressPresent_set _ 0 "t" _ (by norm_num [emptyCache])
  rw [markTaskCompleted_of_present _ 0 "t" _ _ hfresh]
  have hterm : progressPresent _ 0 "t" _ :=
    progressPresent_set
      (initializeProgress (emptyCache TaskRecord 3600) 0 "t" 1 "d") 0 "t"
      { task_id := "t", description := some "d", total_items := 1
        completed_items := 0, current_item_details := some "", status := "completed"
        start_time := some 0, last_update := 0, errors := []
        result := some { is_playlist := false, playlist_title := none, videos := [], error := none } }
      (by norm_num [initializeProgress, setCachedData_defaultTtl, emptyCache])
  rw [updateProgress_of_present _ 0 "t" _ 1 none none hterm]
  rw [getProgressVal, progressPresent_set _ 0 "t" _
    (by norm_num [initializeProgress, setCachedData_defaultTtl, emptyCache])]
  constructor
  · simp [updatedRecord_status]
  · simp [updatedRecord_status]

/-! ## Claim C4 — cache TTL semantics -/

/-- C4 (amended): on the in-process backend a `get` after
`set(ns, key, value, ttl)` returns the value while `now' ≤ set-time + ttl`
(in particular immediately after the set, for `0 ≤ ttl`), and behaves as
absent and evicts the entry only once `now' > set-time + ttl` — the
boundary instant `now' = set-time + ttl` still returns the value. -/
theorem c4_cache_ttl {α : Type} (s : CacheState α) (now now' : ℚ)
    (ns k : String) (v : α) (ttl : ℚ) :
    (now' ≤ now + ttl →
      getCachedData (setCachedData s now ns k v (some ttl)) now' ns k =
        (some v, setCachedData s now ns k v (some ttl))) ∧
    (now + ttl < now' →
      (getCachedData (setCachedData s now ns k v (some ttl)) now' ns k).1 = none ∧
      (getCachedData (setCachedData s now ns k v (some ttl)) now' ns k).2.cache
        (namespacedKey ns k) = none ∧
      (getCachedData (setCachedData s now ns k v (some ttl)) now' ns k).2.expiry
        (namespacedKey ns k) = none) := by
  constructor
  · intro hle
    exact getCachedData_set_same s now now' ns k v (some ttl) (by simp [not_lt.mpr hle])
  · intro hgt
    simp [getCachedData, setCachedData, hgt]

/-- Witness for C4: a fresh read at elapsed 3 of a 5-second entry hits;
a read at elapsed 7 misses. -/
theorem c4_cache_ttl_witness :
    (getCachedData (setCachedData (emptyCache ℕ 3600) 0 "n" "k" 99 (some 5)) 3 "n" "k").1
      = some 99 ∧
    (getCachedData (setCachedData (emptyCache ℕ 3600) 0 "n" "k" 99 (some 5)) 7 "n" "k").1
      = none := by
  constructor
  · rw [(c4_cache_ttl (emptyCache ℕ 3600) 0 3 "n" "k" 99 5).1 (by norm_num)]
  · exact ((c4_cache_ttl (emptyCache ℕ 3600) 0 7 "n" "k" 99 5).2 (by norm_num)).1

/-- Counterexample to C4 as stated: at exactly `ttl` seconds elapsed the
claim demands absence, but the code's strict `time.time() > expiry` test
still returns the stored value. -/
theorem c4_counterexample :
    (getCachedData (setCachedData (emptyCache ℕ 3600) 0 "n" "k" 99 (some 5)) 5 "n" "k").1
      = some 99 ∧
    (getCachedData (setCachedData (emptyCache ℕ 3600) 0 "n" "k" 99 (some 5)) 5 "n" "k").1
      ≠ none := by
  have h := getCachedData_set_same (emptyCache ℕ 3600) 0 5 "n" "k" 99 (some 5)
    (by norm_num)
  rw [h]
  simp

/-! ## Claim C5 — counter monotonicity and the missing bound -/

/-- C5 (amended): across any sequence of `update_progress` calls with
non-negative increments (the source always passes 1), `completed_items`
is non-decreasing; the tracker does not clamp the counter, so it is NOT
bounded by `total_items` (see the counterexample). -/
theorem c5_completed_monotone (now : ℚ) (tid : String) :
    ∀ (us : List (ℤ × Option String × Option String)),
    (∀ u ∈ us, 0 ≤ u.1) →
    ∀ (s : CacheState TaskRecord) (r : TaskRecord),
    getProgressVal s now tid = some r →
    ∀ r', getProgressVal (applyUpdates now tid s us) now tid = some r' →
    r.completed_items ≤ r'.completed_items
  | [], _, s, r, h, r', h' => by
      rw [applyUpdates] at h'
      rw [h] at h'
      exact le_of_eq (congrArg TaskRecord.completed_items (Option.some.inj h'))
  | u :: rest, hpos, s, r, h, r', h' => by
      rw [applyUpdates] at h'
      rcases updateProgress_getVal_of_some s now tid r u.1 u.2.1 u.2.2 h with hnone | hsome
      · rw [applyUpdates_absent now tid rest _ hnone] at h'
        exact absurd h' (by simp)
      · have step := c5_completed_monotone now tid rest
          (fun x hx => hpos x (List.mem_cons_of_mem u hx)) _ _ hsome r' h'
        rw [updatedRecord_completed] at step
        have : 0 ≤ u.1 := hpos u (List.mem_cons_self u rest)
        omega

/-- Witness for C5: two unit increments on a two-item task move the
counter from 0 to 2. -/
theorem c5_completed_monotone_witness :
    (0:ℤ) ≤ 2 ∧
    getProgressVal
      (applyUpdates 0 "t" (initializeProgress (emptyCache TaskRecord 3600) 0 "t" 2 "d")
        [(1, none, none), (1, none, none)]) 0 "t" =
      some (updatedRecord (updatedRecord
        { task_id := "t", description := some "d", total_items := 2
          completed_items := 0, current_item_details := some "", status := "pending"
          start_time := some 0, last_update := 0, errors := [], result := none } 0 1 none none) 0 1 none none) := by
  have hfresh : progressPresent
      (initializeProgress (emptyCache TaskRecord 3600) 0 "t" 2 "d") 0 "t"
      { task_id := "t", description := some "d", total_items := 2
        completed_items := 0, current_item_details := some "", status := "pending"
        start_time := some 0, last_update := 0, errors := [], result := none } := by
    rw [initializeProgress]
    exact progressPresent_set _ 0 "t" _ (by norm_num [emptyCache])
  have hval : getProgressVal
      (applyUpdates 0 "t" (initializeProgress (emptyCache TaskRecord 3600) 0 "t" 2 "d")
        [(1, none, none), (1, none, none)]) 0 "t" =
      some (updatedRecord (updatedRecord
        { task_id := "t", description := some "d", total_items := 2
          completed_items := 0, current_item_details := some "", status := "pending"
          start_time := some 0, last_update := 0, errors := [], result := none } 0 1 none none) 0 1 none none) := by
    rw [applyUpdates, applyUpdates, applyUpdates]
    rw [updateProgress_of_present _ 0 "t" _ 1 none none hfresh]
    rw [updateProgress_of_present _ 0 "t" _ 1 none none
      (progressPresent_set _ 0 "t" _ (by norm_num [initializeProgress, setCachedData_defaultTtl, emptyCache]))]
    rw [getProgressVal, progressPresent_set _ 0 "t" _
      (by norm_num [initializeProgress, setCachedData_defaultTtl, emptyCache])]
  refine ⟨?_, hval⟩
  have := c5_completed_monotone 0 "t" [(1, none, none), (1, none, none)]
    (by
      intro u hu
      simp only [List.mem_cons, List.not_mem_nil, or_false] at hu
      rcases hu with rfl | rfl <;> norm_num)
    (initializeProgress (emptyCache TaskRecord 3600) 0 "t" 2 "d")
    { task_id := "t", description := some "d", total_items := 2
      completed_items := 0, current_item_details := some "", status := "pending"
      start_time := some 0, last_update := 0, errors := [], result := none }
    (by rw [getProgressVal, hfresh]) _ hval
  exact le_trans (by norm_num) this

/-- Counterexample to C5 as stated: two unit increments on a one-item
task drive `completed_items` to 2 > `total_items` = 1 — the bound fails. -/
theorem c5_counterexample :
    (getProgressVal
      (applyUpdates 0 "t" (initializeProgress (emptyCache TaskRecord 3600) 0 "t" 1 "d")
        [(1, none, none), (1, none, none)]) 0 "t").map
          (fun r => (r.completed_items, r.total_items)) = some (2, 1) ∧
    ¬ ((2:ℤ) ≤ 1) := by
  have hfresh : progressPresent
      (initializeProgress (emptyCache TaskRecord 3600) 0 "t" 1 "d") 0 "t"
      { task_id := "t", description := some "d", total_items := 1
        completed_items := 0, current_item_details := some "", status := "pending"
        start_time := some 0, last_update := 0, errors := [], result := none } := by
    rw [initializeProgress]
    exact progressPresent_set _ 0 "t" _ (by norm_num [emptyCache])
  rw [applyUpdates, applyUpdates, applyUpdates]
  rw [updateProgress_of_present _ 0 "t" _ 1 none none hfresh]
  rw [updateProgress_of_present _ 0 "t" _ 1 none none
    (progressPresent_set _ 0 "t" _ (by norm_num [initializeProgress, setCachedData_defaultTtl, emptyCache]))]
  rw [getProgressVal, progressPresent_set _ 0 "t" _
    (by norm_num [initializeProgress, setCachedData_defaultTtl, emptyCache])]
  refine ⟨?_, by norm_num⟩
  norm_num [updatedRecord_completed, updatedRecord_total]

/-! ## Claim C6 — `initialize_progress` overwrites terminal records -/

/-- C6: `initialize_progress` unconditionally replaces whatever record is
stored — here one just marked completed with a result — by the fresh
pending record (status `pending`, zero counter, empty errors, no
result); with `submit_task` enqueueing before initializing, this is
exactly the overwrite a fast job suffers. -/
theorem c6_initialize_overwrites (s : CacheState TaskRecord) (now now2 : ℚ)
    (tid : String) (res : ProcResult) (total : ℤ) (desc : String)
    (h : 0 ≤ s.defaultTtl) :
    (∃ rPrev, getProgressVal (markTaskCompleted s now tid res) now tid = some rPrev ∧
      rPrev.status = "completed" ∧ rPrev.result = some res) ∧
    getProgressVal
        (initializeProgress (markTaskCompleted s now tid res) now2 tid total desc)
        now2 tid =
      some { task_id := tid, description := some desc, total_items := total
             completed_items := 0, current_item_details := some ""
             status := "pending", start_time := some now2, last_update := now2
             errors := [], result := none } := by
  refine ⟨markTaskCompleted_getVal s now tid res h, ?_⟩
  have httl : (0:ℚ) ≤ (markTaskCompleted s now tid res).defaultTtl := by
    rw [markTaskCompleted, updateTaskStatus_defaultTtl]
    exact h
  rw [initializeProgress, getProgressVal, progressPresent_set _ now2 tid _ httl]

/-! ## Lemmas: exact binary64 rounding at the values the route needs -/

theorem normalizeB64_shift : ∀ (m fuel : ℕ) (q : ℚ) (k : ℤ), 0 < q → m ≤ fuel →
    twoPow52 ≤ q * 2 ^ m → q * 2 ^ m < twoPow53 →
    normalizeB64 fuel q k = (q * 2 ^ m, k + m)
  | 0, fuel, q, k, hq, _, hlow, hhigh => by
      simp only [pow_zero, mul_one] at hlow hhigh
      cases fuel with
      | zero => simp [normalizeB64]
      | succ f =>
          rw [normalizeB64]
          rw [if_neg (by linarith : ¬ q < twoPow52), if_neg (by linarith : ¬ twoPow53 ≤ q)]
          simp
  | m + 1, fuel, q, k, hq, hf, hlow, hhigh => by
      cases fuel with
      | zero => omega
      | succ f =>
          have h2 : (2:ℚ) ≤ 2 ^ (m + 1) := by
            calc (2:ℚ) = 2 ^ 1 := (pow_one 2).symm
            _ ≤ 2 ^ (m + 1) := by
              apply pow_le_pow_right₀ (by norm_num) (by omega)
          have hq2 : q * 2 < twoPow53 := by
            have := mul_le_mul_of_nonneg_left h2 (le_of_lt hq)
            calc q * 2 ≤ q * 2 ^ (m + 1) := this
            _ < twoPow53 := hhigh
          have hlt : q < twoPow52 := by
            have h53 : twoPow53 = twoPow52 * 2 := by norm_num [twoPow52, twoPow53]
            rw [h53] at hq2
            have h2pos : (0:ℚ) < 2 := by norm_num
            calc q = q * 2 / 2 := by field_simp
            _ < twoPow52 * 2 / 2 := by apply div_lt_div_of_pos_right hq2 h2pos
            _ = twoPow52 := by field_simp
          rw [normalizeB64, if_pos hlt]
          have ih := normalizeB64_shift m f (q * 2) (k + 1) (by positivity) (by omega)
            (by rw [mul_assoc, ← pow_succ']; exact hlow)
            (by rw [mul_assoc, ← pow_succ']; exact hhigh)
          rw [ih]
          congr 1
          · rw [mul_assoc, ← pow_succ']
          · push_cast; ring

/-- Evaluate `roundB64` on a positive value below `2^53` by giving the
scaling exponent explicitly. -/
theorem roundB64_eval (q : ℚ) (m : ℕ) (hq : 0 < q)
    (hlow : twoPow52 ≤ q * 2 ^ m) (hhigh : q * 2 ^ m < twoPow53) (hm : m ≤ 5000) :
    roundB64 q = (roundHalfEven (q * 2 ^ m) : ℚ) / 2 ^ m := by
  rw [roundB64, if_neg (ne_of_gt hq)]
  simp only [abs_of_pos hq, if_neg (not_lt.mpr (le_of_lt hq))]
  rw [normalizeB64_shift m 5000 q 0 hq hm hlow hhigh]
  simp [zpow_natCast]

theorem roundB64_one : roundB64 1 = 1 := by
  rw [roundB64_eval 1 52 (by norm_num) (by norm_num [twoPow52])
    (by norm_num [twoPow53]) (by norm_num)]
  norm_num [roundHalfEven]

theorem roundB64_hundred : roundB64 100 = 100 := by
  rw [roundB64_eval 100 46 (by norm_num) (by norm_num [twoPow52])
    (by norm_num [twoPow53]) (by norm_num)]
  norm_num [roundHalfEven]

/-- The double nearest to 29/100 is 5224175567749775 / 2^54 — slightly
below 0.29. -/
theorem fdiv64_29_100 : fdiv64 29 100 = 5224175567749775 / 2 ^ 54 := by
  rw [fdiv64, roundB64_eval (29 / 100) 54 (by norm_num) (by norm_num [twoPow52])
    (by norm_num [twoPow53]) (by norm_num)]
  norm_num [roundHalfEven]

/-- Multiplying that double by 100 rounds to 8162774324609023 / 2^48,
i.e. 28.999999999999996…, whose truncation is 28. -/
theorem fmul64_29_100 :
    fmul64 (5224175567749775 / 2 ^ 54) 100 = 8162774324609023 / 2 ^ 48 := by
  rw [fmul64, roundB64_eval (5224175567749775 / 2 ^ 54 * 100) 48 (by norm_num)
    (by norm_num [twoPow52]) (by norm_num [twoPow53]) (by norm_num)]
  norm_num [roundHalfEven]

/-! ## Claim C3 — `progress_percentage` -/

/-- C3 (amended): the snapshot's `progress_percentage` is 0 when
`total_items = 0` and exactly 100 at the boundary
`completed_items = total_items > 0`; in between it is the truncation of
the binary64 computation `int((completed/total)*100)`, which is NOT
always `floor(completed*100/total)` — see the counterexample, where
float rounding loses one percent. -/
theorem c3_percentage_boundaries (r : TaskRecord) (taskId : String) :
    (r.total_items = 0 → (taskStatusSnapshot taskId r).progress_percentage = 0) ∧
    (0 < r.total_items → r.completed_items = r.total_items →
      (taskStatusSnapshot taskId r).progress_percentage = 100) := by
  constructor
  · intro h0
    simp [taskStatusSnapshot, progressPercentage, h0]
  · intro hpos heq
    have hne : ((r.total_items : ℚ)) ≠ 0 := by
      exact_mod_cast ne_of_gt (by exact_mod_cast hpos : (0:ℚ) < (r.total_items : ℚ))
    have hdiv : fdiv64 (r.completed_items : ℚ) (r.total_items : ℚ) = roundB64 1 := by
      rw [fdiv64, heq, div_self hne]
    simp only [taskStatusSnapshot, progressPercentage, if_pos hpos]
    rw [hdiv, roundB64_one]
    have hmul : fmul64 1 100 = (100:ℚ) := by
      rw [fmul64, one_mul, roundB64_hundred]
    rw [hmul]
    norm_num [pyInt]

/-- Witness for C3: a finished 7-item task reads 100%, an empty task 0%. -/
theorem c3_percentage_boundaries_witness :
    (taskStatusSnapshot "t"
      { task_id := "t", description := some "", total_items := 7
        completed_items := 7, current_item_details := some "", status := "completed"
        start_time := some 0, last_update := 0, errors := [], result := none }).progress_percentage = 100 ∧
    (taskStatusSnapshot "t"
      { task_id := "t", description := some "", total_items := 0
        completed_items := 0, current_item_details := some "", status := "pending"
        start_time := some 0, last_update := 0, errors := [], result := none }).progress_percentage = 0 :=
  ⟨(c3_percentage_boundaries
      { task_id := "t", description := some "", total_items := 7
        completed_items := 7, current_item_details := some "", status := "completed"
        start_time := some 0, last_update := 0, errors := [], result := none } "t").2
      (by norm_num) rfl,
   (c3_percentage_boundaries
      { task_id := "t", description := some "", total_items := 0
        completed_items := 0, current_item_details := some "", status := "pending"
        start_time := some 0, last_update := 0, errors := [], result := none } "t").1 rfl⟩

/-- Counterexample to C3 as stated: at `completed_items = 29`,
`total_items = 100` the route computes `int((29/100)*100) = 28` in
binary64 arithmetic, not `floor(29*100/100) = 29`. -/
theorem c3_counterexample :
    progressPercentage 100 29 = 28 ∧ specPercentage 100 29 = 29 ∧
    progressPercentage 100 29 ≠ specPercentage 100 29 := by
  have hval : progressPercentage 100 29 = 28 := by
    rw [progressPercentage, if_pos (by norm_num : (100:ℤ) > 0)]
    have h29 : ((29:ℤ) : ℚ) = 29 := by norm_num
    have h100 : ((100:ℤ) : ℚ) = 100 := by norm_num
    rw [h29, h100, fdiv64_29_100, fmul64_29_100]
    norm_num [pyInt]
  have hspec : specPercentage 100 29 = 29 := by
    rw [specPercentage]
    norm_num
  exact ⟨hval, hspec, by rw [hval, hspec]; norm_num⟩

/-! ## Lemmas: the retry executor -/

theorem retryAttempts_ok {E A : Type} (op : ℕ → Except E A) (retryable : E → Bool)
    (maxR : ℕ) :
    ∀ (k attempt fuel : ℕ), attempt + k < maxR → fuel = maxR - attempt →
    (∀ i, i < k → ∃ e, op (attempt + i) = Except.error e ∧ retryable e = true) →
    ∀ v : A, op (attempt + k) = Except.ok v →
    retryAttempts op retryable maxR fuel attempt = (Except.ok (some v), k + 1)
  | 0, attempt, fuel, hlt, hfuel, _, v, hok => by
      cases fuel with
      | zero => omega
      | succ f =>
          rw [retryAttempts]
          rw [show attempt + 0 = attempt from rfl] at hok
          rw [hok]
  | k + 1, attempt, fuel, hlt, hfuel, hfail, v, hok => by
      cases fuel with
      | zero => omega
      | succ f =>
          obtain ⟨e, he, hr⟩ := hfail 0 (Nat.succ_pos k)
          rw [show attempt + 0 = attempt from rfl] at he
          rw [retryAttempts, he]
          dsimp only
          rw [if_pos hr, if_neg (by omega : ¬ attempt = maxR - 1)]
          have ih := retryAttempts_ok op retryable maxR k (attempt + 1) f
            (by omega) (by omega)
            (fun i hi => by
              have := hfail (i + 1) (by omega)
              rwa [show attempt + (i + 1) = attempt + 1 + i by omega] at this)
            v (by rwa [show attempt + 1 + k = attempt + (k + 1) by omega])
          rw [ih]

theorem retryAttempts_allFail {E A : Type} (op : ℕ → Except E A)
    (retryable : E → Bool) (maxR : ℕ) (errOf : ℕ → E)
    (herr : ∀ i, op i = Except.error (errOf i))
    (hret : ∀ i, retryable (errOf i) = true) :
    ∀ (fuel attempt : ℕ), attempt < maxR → fuel = maxR - attempt →
    retryAttempts op retryable maxR fuel attempt =
      (Except.error (errOf (maxR - 1)), maxR - attempt)
  | 0, attempt, hlt, hfuel => by omega
  | fuel + 1, attempt, hlt, hfuel => by
      rw [retryAttempts, herr attempt]
      dsimp only
      rw [if_pos (hret attempt)]
      by_cases hlast : attempt = maxR - 1
      · rw [if_pos hlast, hlast]
        have : maxR - (maxR - 1) = 1 := by omega
        rw [this]
      · rw [if_neg hlast]
        have ih := retryAttempts_allFail op retryable maxR errOf herr hret fuel
          (attempt + 1) (by omega) (by omega)
        rw [ih]
        have : maxR - (attempt + 1) + 1 = maxR - attempt := by omega
        rw [this]

/-! ## Claim C7 — retry semantics -/

/-- C7 (amended): an operation that fails with retryable errors
`k < max_retries` times and then succeeds makes the wrapper return the
success value after exactly `k + 1` calls; an operation that always
fails with retryable errors makes the wrapper re-raise the operation's
own last error unchanged after exactly `max_retries` calls — provided
`max_retries ≥ 1`.  (With `max_retries = 0` the loop body never runs and
the wrapper returns Python `None` after zero calls instead of raising —
the counterexample.) -/
theorem c7_retry_semantics {E A : Type} (op : ℕ → Except E A)
    (retryable : E → Bool) (maxRetries : ℕ) :
    (∀ (k : ℕ) (v : A), k < maxRetries →
      (∀ i, i < k → ∃ e, op i = Except.error e ∧ retryable e = true) →
      op k = Except.ok v →
      retryWithBackoff op retryable maxRetries = (Except.ok (some v), k + 1)) ∧
    (∀ errOf : ℕ → E, 1 ≤ maxRetries →
      (∀ i, op i = Except.error (errOf i)) →
      (∀ i, retryable (errOf i) = true) →
      retryWithBackoff op retryable maxRetries =
        (Except.error (errOf (maxRetries - 1)), maxRetries)) := by
  constructor
  · intro k v hk hfail hok
    rw [retryWithBackoff]
    exact retryAttempts_ok op retryable maxRetries k 0 maxRetries
      (by omega) (by omega) (fun i hi => by simpa using hfail i hi) v (by simpa using hok)
  · intro errOf hmax herr hret
    rw [retryWithBackoff]
    have := retryAttempts_allFail op retryable maxRetries errOf herr hret maxRetries 0
      (by omega) (by omega)
    simpa using this

/-- Witness for C7: two retryable failures then success (3 calls); and
two credentials always failing under `max_retries = 2` (error 9 after 2
calls). -/
theorem c7_retry_semantics_witness :
    retryWithBackoff (fun i => if i < 2 then (Except.error 7 : Except ℕ ℕ) else Except.ok 42)
      (fun _ => true) 3 = (Except.ok (some 42), 3) ∧
    retryWithBackoff (fun _ => (Except.error 9 : Except ℕ ℕ)) (fun _ => true) 2 =
      (Except.error 9, 2) := by
  constructor
  · exact (c7_retry_semantics (fun i => if i < 2 then (Except.error 7 : Except ℕ ℕ) else Except.ok 42)
      (fun _ => true) 3).1 2 42 (by norm_num)
      (fun i hi => ⟨7, by simp [hi], rfl⟩) (by norm_num)
  · exact (c7_retry_semantics (fun _ => (Except.error 9 : Except ℕ ℕ))
      (fun _ => true) 2).2 (fun _ => 9) (by norm_num) (fun _ => rfl) (fun _ => rfl)

/-- Counterexample to C7 as stated: with `max_retries = 0` an
always-failing operation does not raise — the wrapper falls off the loop
and returns `None` having made zero calls. -/
theorem c7_counterexample :
    retryWithBackoff (fun _ => (Except.error 0 : Except ℕ ℕ)) (fun _ => true) 0 =
      (Except.ok none, 0) ∧
    retryWithBackoff (fun _ => (Except.error 0 : Except ℕ ℕ)) (fun _ => true) 0 ≠
      (Except.error 0, 0) := by
  exact ⟨rfl, by simp [retryWithBackoff, retryAttempts]⟩

/-! ## Claim C10 — slice derivation -/

/-- C10: the derived slice is exactly the single-space concatenation, in
original order, of the entries whose start offset lies in the inclusive
window; on `[("hello", 0), ("world", 5)]` with window `[4, 10]` it is
`"world"`. -/
theorem c10_slice_derivation :
    (∀ (entries : List Entry) (startW endW : Option ℚ),
      filterTranscriptByTime (some entries) startW endW = sliceSpecText entries startW endW) ∧
    filterTranscriptByTime (some [{ text := "hello", start := 0 }, { text := "world", start := 5 }])
      (some 4) (some 10) = "world" := by
  constructor
  · intro entries startW endW
    have hpred : (fun (e : Entry) =>
        (match startW with | none => true | some s0 => decide (e.start ≥ s0)) &&
        (match endW with | none => true | some t => decide (e.start ≤ t))) =
        fun e => (startW.isNone || decide (startW.getD 0 ≤ e.start)) &&
          (endW.isNone || decide (e.start ≤ endW.getD 0)) := by
      funext e
      cases startW <;> cases endW <;> simp [ge_iff_le]
    rw [filterTranscriptByTime, sliceSpecText, hpred]
  · rw [filterTranscriptByTime]
    norm_num [List.filter, String.intercalate]
    rfl

/-! ## Lemmas: index-addressed slot writes -/

/-- The slots component of the fan-in loop is the fold of the
index-addressed writes, independent of the tracker state. -/
theorem playlistLoop_slots (taskId : Option String) (now : ℚ) (n : ℕ)
    (itemResult : ℕ → VideoData) :
    ∀ (order : List ℕ) (prog : CacheState TaskRecord)
      (slots : List (Option VideoData)) (cc : ℕ),
    (playlistLoop taskId now n itemResult order prog slots cc).2.1 =
      order.foldl (fun sl i => sl.set i (some (itemResult i))) slots
  | [], _, _, _ => rfl
  | _ :: rest, _, _, _ =>
      playlistLoop_slots taskId now n itemResult rest _ _ _

theorem foldl_set_length {α : Type} (g : ℕ → α) :
    ∀ (l : List ℕ) (init : List (Option α)),
    (l.foldl (fun sl i => sl.set i (some (g i))) init).length = init.length
  | [], _ => rfl
  | i :: rest, init => by
      rw [List.foldl_cons, foldl_set_length g rest, List.length_set]

theorem foldl_set_get_not_mem {α : Type} (g : ℕ → α) :
    ∀ (l : List ℕ) (init : List (Option α)) (j : ℕ), j ∉ l →
    (l.foldl (fun sl i => sl.set i (some (g i))) init)[j]? = init[j]?
  | [], _, _, _ => rfl
  | i :: rest, init, j, hj => by
      rw [List.foldl_cons,
        foldl_set_get_not_mem g rest _ j (fun h => hj (List.mem_cons_of_mem i h))]
      exact List.getElem?_set_ne (fun h => hj (by rw [← h]; exact List.mem_cons_self i rest))

theorem foldl_set_get_mem {α : Type} (g : ℕ → α) :
    ∀ (l : List ℕ) (init : List (Option α)) (j : ℕ), j ∈ l → j < init.length →
    (l.foldl (fun sl i => sl.set i (some (g i))) init)[j]? = some (some (g j))
  | [], _, _, hj, _ => absurd hj (List.not_mem_nil _)
  | i :: rest, init, j, hj, hlen => by
      rw [List.foldl_cons]
      by_cases hr : j ∈ rest
      · exact foldl_set_get_mem g rest _ j hr (by rwa [List.length_set])
      · have hij : j = i := by
          rcases List.mem_cons.mp hj with h | h
          · exact h
          · exact absurd h hr

        subst hij
        rw [foldl_set_get_not_mem g rest _ j hr]
        exact List.getElem?_set_self (by exact hlen)

/-- Writing each index of `range n` exactly once, in any order, into a
pre-sized none-array yields the in-order map. -/
theorem foldl_set_perm_range {α : Type} (g : ℕ → α) (n : ℕ) (order : List ℕ)
    (hperm : order.Perm (List.range n)) :
    order.foldl (fun sl i => sl.set i (some (g i))) (List.replicate n none) =
      (List.range n).map (fun i => some (g i)) := by
  apply List.ext_getElem?
  intro j
  by_cases hj : j < n
  · have hmem : j ∈ order := hperm.mem_iff.mpr (List.mem_range.mpr hj)
    rw [foldl_set_get_mem g order _ j hmem (by rwa [List.length_replicate])]
    rw [List.getElem?_map, List.getElem?_range hj]
    rfl
  · have h1 : (order.foldl (fun sl i => sl.set i (some (g i))) (List.replicate n none)).length ≤ j := by
      rw [foldl_set_length, List.length_replicate]
      omega
    have h2 : ((List.range n).map (fun i => some (g i))).length ≤ j := by
      rw [List.length_map, List.length_range]
      omega
    rw [List.getElem?_eq_none h1, List.getElem?_eq_none h2]

/-! ## Claim C9 — result order preservation -/

/-- C9: for every input id list and every completion order (any
permutation of the item indices), each item's slot is written at its
original input index, so `_process_playlist` returns the result
collection in the original input order. -/
theorem c9_result_order (itemResult : ℕ → VideoData) (ids : List String)
    (title : String) (order : List ℕ) (prog : CacheState TaskRecord) (now : ℚ)
    (taskId : Option String)
    (hperm : order.Perm (List.range ids.length)) (hne : ids.isEmpty = false) :
    (processPlaylist itemResult (Except.ok (ids, title)) order prog now taskId).1.videos =
      (List.range ids.length).map (fun i => some (itemResult i)) := by
  rw [processPlaylist]
  simp only [hne, Bool.false_eq_true, if_false]
  rw [playlistLoop_slots, foldl_set_perm_range itemResult ids.length order hperm]

/-- Witness for C9: input `[a, b, c]` completing in order `[c, a, b]`
still yields `[result a, result b, result c]`. -/
theorem c9_result_order_witness :
    (processPlaylist
      (fun i => buildVideoData (toString i) ("T" ++ toString i) "u" (some "tx") (some "sm") none)
      (Except.ok (["a", "b", "c"], "PL")) [2, 0, 1]
      (emptyCache TaskRecord 3600) 0 (some "t")).1.videos =
      [some (buildVideoData "0" "T0" "u" (some "tx") (some "sm") none),
       some (buildVideoData "1" "T1" "u" (some "tx") (some "sm") none),
       some (buildVideoData "2" "T2" "u" (some "tx") (some "sm") none)] := by
  rw [c9_result_order
    (fun i => buildVideoData (toString i) ("T" ++ toString i) "u" (some "tx") (some "sm") none)
    ["a", "b", "c"] "PL" [2, 0, 1] (emptyCache TaskRecord 3600) 0 (some "t")
    (by decide) rfl]
  rfl

/-! ## Lemmas: disjointness of the transcripts-namespace keys, and claim C8 -/

theorem infoKey_ne_transcriptKey (vid : String) :
    namespacedKey transcriptsNamespace ("info_" ++ vid) ≠
      namespacedKey transcriptsNamespace vid := by
  intro h
  have hlen := congrArg String.length h
  simp only [namespacedKey, String.length_append] at hlen
  have h5 : ("info_" : String).length = 5 := rfl
  omega

theorem infoKey_ne_sliceKey (vid rest : String) :
    namespacedKey transcriptsNamespace ("info_" ++ vid) ≠
      namespacedKey transcriptsNamespace ("slice_" ++ rest) := by
  intro h
  have hd := congrArg String.data h
  simp only [namespacedKey, String.data_append, List.append_assoc] at hd
  have h2 := List.append_cancel_left hd
  have h3 := List.append_cancel_left h2
  simp at h3

theorem fetchTWI_cold (useApi : Bool) (sliceTtl : ℚ)
    (apiFetch : ℕ → Except String (Option (List Entry)))
    (infoFetch : Except String VideoInfo) (now : ℚ) (videoId : String)
    (startTime endTime : Option ℚ) (hid : videoId ≠ "") :
    fetchTranscriptWithInfo useApi sliceTtl apiFetch infoFetch
        (emptyCache TransVal 3600) now videoId startTime endTime =
      fetchMissPath useApi sliceTtl apiFetch infoFetch now videoId startTime endTime
        none none (emptyCache TransVal 3600) := by
  have hmiss : ∀ k, getCachedData (emptyCache TransVal 3600) now transcriptsNamespace k =
      (none, emptyCache TransVal 3600) := fun k =>
    getCachedData_miss (emptyCache TransVal 3600) now transcriptsNamespace k rfl rfl
  rw [fetchTranscriptWithInfo, if_neg hid]
  cases hsk : sliceKeyFor videoId startTime endTime with
  | none =>
      simp only [hmiss, hsk, Option.none_bind]
      rw [fetchTranscriptWithInfo.fetchCachedOrMiss]
      intro entries info h _
      cases h
  | some sk =>
      simp only [hmiss, hsk, Option.none_bind]
      rw [fetchTranscriptWithInfo.fetchCachedOrMiss]
      intro entries info h _
      cases h

theorem fetchMissPath_eval (sliceTtl : ℚ)
    (apiFetch : ℕ → Except String (Option (List Entry))) (e : String)
    (entries : List Entry) (now : ℚ) (videoId : String)
    (startTime endTime : Option ℚ) (st0 : CacheState TransVal)
    (hfetch : apiFetch 0 = Except.ok (some entries))
    (hne : entries.isEmpty = false) :
    fetchMissPath true sliceTtl apiFetch (Except.error e) now videoId startTime endTime
        none none st0 =
      (Except.ok (filterTranscriptByTime (some entries) startTime endTime,
        placeholderInfo videoId),
       match sliceKeyFor videoId startTime endTime with
       | some sk =>
           if filterTranscriptByTime (some entries) startTime endTime ≠ "" then
             setCachedData
               (setCachedData (setCachedData st0 now transcriptsNamespace videoId
                   (TransVal.transcriptVal entries) (some (30 * 24 * 3600)))
                 now transcriptsNamespace ("info_" ++ videoId)
                 (TransVal.infoVal (placeholderInfo videoId)) (some 300))
               now transcriptsNamespace sk
               (TransVal.sliceVal (filterTranscriptByTime (some entries) startTime endTime))
               (some sliceTtl)
           else
             setCachedData (setCachedData st0 now transcriptsNamespace videoId
                 (TransVal.transcriptVal entries) (some (30 * 24 * 3600)))
               now transcriptsNamespace ("info_" ++ videoId)
               (TransVal.infoVal (placeholderInfo videoId)) (some 300)
       | none =>
           setCachedData (setCachedData st0 now transcriptsNamespace videoId
               (TransVal.transcriptVal entries) (some (30 * 24 * 3600)))
             now transcriptsNamespace ("info_" ++ videoId)
             (TransVal.infoVal (placeholderInfo videoId)) (some 300)) := by
  have hretry : (retryWithBackoff apiFetch (fun _ => true) MAX_RETRIES).1 =
      Except.ok (some (some entries)) := by
    rw [retryWithBackoff,
      retryAttempts_ok apiFetch (fun _ => true) MAX_RETRIES 0 0 MAX_RETRIES
        (by norm_num [MAX_RETRIES]) (by norm_num)
        (fun i hi => absurd hi (Nat.not_lt_zero i)) (some entries) hfetch]
  rw [fetchMissPath]
  simp only [hretry]
  simp [pyTruthyOptList, hne]

theorem getCachedData_of_fields {α : Type} (s : CacheState α) (now : ℚ)
    (ns k : String) (v : α) (exp : ℚ)
    (hc : s.cache (namespacedKey ns k) = some v)
    (he : s.expiry (namespacedKey ns k) = some exp) (hx : ¬ now > exp) :
    getCachedData s now ns k = (some v, s) := by
  simp [getCachedData, hc, he, hx]

theorem sliceKeyFor_shape (videoId : String) (startTime endTime : Option ℚ) (sk : String)
    (h : sliceKeyFor videoId startTime endTime = some sk) :
    ∃ rest, sk = "slice_" ++ rest := by
  rw [sliceKeyFor] at h
  by_cases hb : (startTime.isSome || endTime.isSome) = true
  · rw [if_pos hb] at h
    refine ⟨videoId ++ ("_" ++ (optTimeKey startTime ++ ("_" ++ optTimeKey endTime))), ?_⟩
    have := (Option.some.inj h).symm
    rw [this]
    simp [String.append_assoc]
  · rw [if_neg hb] at h
    cases h

/-- C8: starting from a cold cache, when the transcript fetch succeeds
(the first API attempt returns a nonempty entry list) but the metadata
fetch fails even through its fallback, the per-item resolution does not
raise on account of metadata: it returns `Except.ok` with the
placeholder record — its id is the source id, its title
`"Video " ++ id` contains the id, a synthesized watch URL, duration 0 —
and caches the placeholder under the info key with the short TTL 300. -/
theorem c8_metadata_degradation (sliceTtl : ℚ)
    (apiFetch : ℕ → Except String (Option (List Entry)))
    (e : String) (entries : List Entry) (videoId : String)
    (startTime endTime : Option ℚ) (now : ℚ)
    (hid : videoId ≠ "")
    (hfetch : apiFetch 0 = Except.ok (some entries))
    (hne : entries.isEmpty = false) :
    (fetchTranscriptWithInfo true sliceTtl apiFetch (Except.error e)
        (emptyCache TransVal 3600) now videoId startTime endTime).1 =
      Except.ok (filterTranscriptByTime (some entries) startTime endTime,
        placeholderInfo videoId) ∧
    (placeholderInfo videoId).id = videoId ∧
    (placeholderInfo videoId).title = "Video " ++ videoId ∧
    (∃ l r : List Char, (placeholderInfo videoId).title.data = l ++ videoId.data ++ r) ∧
    (placeholderInfo videoId).url = watchUrl videoId ∧
    (placeholderInfo videoId).duration = 0 ∧
    (getCachedData
        (fetchTranscriptWithInfo true sliceTtl apiFetch (Except.error e)
          (emptyCache TransVal 3600) now videoId startTime endTime).2
        now transcriptsNamespace ("info_" ++ videoId)).1 =
      some (TransVal.infoVal (placeholderInfo videoId)) ∧
    (fetchTranscriptWithInfo true sliceTtl apiFetch (Except.error e)
        (emptyCache TransVal 3600) now videoId startTime endTime).2.expiry
      (namespacedKey transcriptsNamespace ("info_" ++ videoId)) = some (now + 300) := by
  have hcold := fetchTWI_cold true sliceTtl apiFetch (Except.error e) now videoId
    startTime endTime hid
  have heval := fetchMissPath_eval sliceTtl apiFetch e entries now videoId
    startTime endTime (emptyCache TransVal 3600) hfetch hne
  have hinfo : ∀ (st : CacheState TransVal),
      (setCachedData st now transcriptsNamespace ("info_" ++ videoId)
        (TransVal.infoVal (placeholderInfo videoId)) (some 300)).cache
        (namespacedKey transcriptsNamespace ("info_" ++ videoId)) =
        some (TransVal.infoVal (placeholderInfo videoId)) ∧
      (setCachedData st now transcriptsNamespace ("info_" ++ videoId)
        (TransVal.infoVal (placeholderInfo videoId)) (some 300)).expiry
        (namespacedKey transcriptsNamespace ("info_" ++ videoId)) = some (now + 300) := by
    intro st
    constructor <;> simp [setCachedData]
  refine ⟨?_, rfl, rfl,
    ⟨"Video ".data, [], by simp [placeholderInfo, String.data_append]⟩, rfl, rfl, ?_, ?_⟩
  · rw [hcold, heval]
  · rw [hcold, heval]
    cases hsk : sliceKeyFor videoId startTime endTime with
    | none =>
        dsimp only
        rw [getCachedData_of_fields _ now transcriptsNamespace ("info_" ++ videoId)
          (TransVal.infoVal (placeholderInfo videoId)) (now + 300)
          (hinfo _).1 (hinfo _).2 (by norm_num)]
    | some sk =>
        dsimp only
        obtain ⟨rest, hrest⟩ := sliceKeyFor_shape videoId startTime endTime sk hsk
        by_cases hft : filterTranscriptByTime (some entries) startTime endTime ≠ ""
        · rw [if_pos hft]
          have hnek : namespacedKey transcriptsNamespace ("info_" ++ videoId) ≠
              namespacedKey transcriptsNamespace sk := by
            rw [hrest]
            exact infoKey_ne_sliceKey videoId rest
          rw [getCachedData_of_fields _ now transcriptsNamespace ("info_" ++ videoId)
            (TransVal.infoVal (placeholderInfo videoId)) (now + 300)
            (by rw [setCachedData_cache_ne _ now transcriptsNamespace sk _ (some sliceTtl) _ hnek]
                exact (hinfo _).1)
            (by rw [setCachedData_expiry_ne _ now transcriptsNamespace sk _ (some sliceTtl) _ hnek]
                exact (hinfo _).2)
            (by norm_num)]
        · rw [if_neg hft]
          rw [getCachedData_of_fields _ now transcriptsNamespace ("info_" ++ videoId)
            (TransVal.infoVal (placeholderInfo videoId)) (now + 300)
            (hinfo _).1 (hinfo _).2 (by norm_num)]
  · rw [hcold, heval]
    cases hsk : sliceKeyFor videoId startTime endTime with
    | none =>
        dsimp only
        exact (hinfo _).2
    | some sk =>
        dsimp only
        obtain ⟨rest, hrest⟩ := sliceKeyFor_shape videoId startTime endTime sk hsk
        by_cases hft : filterTranscriptByTime (some entries) startTime endTime ≠ ""
        · rw [if_pos hft]
          have hnek : namespacedKey transcriptsNamespace ("info_" ++ videoId) ≠
              namespacedKey transcriptsNamespace sk := by
            rw [hrest]
            exact infoKey_ne_sliceKey videoId rest
          rw [setCachedData_expiry_ne _ now transcriptsNamespace sk _ (some sliceTtl) _ hnek]
          exact (hinfo _).2
        · rw [if_neg hft]
          exact (hinfo _).2

/-- Witness for C8 at id `"X2"`. -/
theorem c8_metadata_degradation_witness :
    (fetchTranscriptWithInfo true 86400 (fun _ => Except.ok (some [{ text := "hi", start := 0 }]))
        (Except.error "dead") (emptyCache TransVal 3600) 0 "X2" none none).1 =
      Except.ok (filterTranscriptByTime (some [{ text := "hi", start := 0 }]) none none,
        placeholderInfo "X2") ∧
    (placeholderInfo "X2").title = "Video " ++ "X2" ∧
    (getCachedData
        (fetchTranscriptWithInfo true 86400 (fun _ => Except.ok (some [{ text := "hi", start := 0 }]))
          (Except.error "dead") (emptyCache TransVal 3600) 0 "X2" none none).2
        0 transcriptsNamespace ("info_" ++ "X2")).1 =
      some (TransVal.infoVal (placeholderInfo "X2")) := by
  have h := c8_metadata_degradation 86400
    (fun _ => Except.ok (some [{ text := "hi", start := 0 }])) "dead"
    [{ text := "hi", start := 0 }] "X2" none none 0 (by simp) rfl rfl
  exact ⟨h.1, h.2.2.1, h.2.2.2.2.2.2.1⟩

/-- Witness for C6 on the empty store. -/
theorem c6_initialize_overwrites_witness :
    getProgressVal
        (initializeProgress
          (markTaskCompleted (emptyCache TaskRecord 3600) 0 "t"
            { is_playlist := false, playlist_title := none, videos := [], error := none })
          0 "t" 1 "d") 0 "t" =
      some { task_id := "t", description := some "d", total_items := 1
             completed_items := 0, current_item_details := some ""
             status := "pending", start_time := some 0, last_update := 0
             errors := [], result := none } :=
  (c6_initialize_overwrites (emptyCache TaskRecord 3600) 0 0 "t"
    { is_playlist := false, playlist_title := none, videos := [], error := none }
    1 "d" (by norm_num [emptyCache])).2

/-! ## Claim C1 — failure handling in both job modes -/

theorem updatedRecord_errors (r : TaskRecord) (now : ℚ) (inc : ℤ)
    (det err : Option String) :
    (updatedRecord r now inc det err).errors = r.errors ++
      (if pyTruthyOptStr err then
        [{ item_details := pyOrStr det "Unknown item", error := err.getD ""
           timestamp := now }]
      else []) := by
  unfold updatedRecord
  cases det <;> cases h : pyTruthyOptStr err <;> simp [h]

theorem updatedRecord_result (r : TaskRecord) (now : ℚ) (inc : ℤ)
    (det err : Option String) :
    (updatedRecord r now inc det err).result = r.result := by
  unfold updatedRecord
  cases det <;> cases h : pyTruthyOptStr err <;> simp [h]

theorem string_eq_empty_of_length (s : String) (h : s.length = 0) : s = "" := by
  apply String.ext
  have h2 : s.data.length = 0 := h
  simpa using List.length_eq_zero.mp h2

theorem append_ne_empty_left (a b : String) (ha : a ≠ "") : a ++ b ≠ "" := by
  intro h
  have hlen := congrArg String.length h
  rw [String.length_append] at hlen
  have h0 : a.length = 0 := by
    have he : ("" : String).length = 0 := rfl
    omega
  exact ha (string_eq_empty_of_length a h0)

theorem fetchMissPath_fail (sliceTtl : ℚ)
    (apiFetch : ℕ → Except String (Option (List Entry)))
    (infoFetch : Except String VideoInfo) (errs : ℕ → String)
    (now : ℚ) (videoId : String) (startTime endTime : Option ℚ)
    (st0 : CacheState TransVal)
    (hall : ∀ i, apiFetch i = Except.error (errs i)) :
    ∃ st1, fetchMissPath true sliceTtl apiFetch infoFetch now videoId
        startTime endTime none none st0 =
      (Except.error ("Failed to fetch transcript for " ++ videoId), st1) := by
  have hretry : (retryWithBackoff apiFetch (fun _ => true) MAX_RETRIES).1 =
      Except.error (errs (MAX_RETRIES - 1)) := by
    rw [retryWithBackoff,
      retryAttempts_allFail apiFetch (fun _ => true) MAX_RETRIES errs hall
        (fun _ => rfl) MAX_RETRIES 0 (by norm_num [MAX_RETRIES]) (by norm_num)]
  unfold fetchMissPath
  simp only [hretry]
  simp [pyTruthyOptList]

theorem singleJob_allFail (sliceTtl : ℚ)
    (apiFetch : ℕ → Except String (Option (List Entry)))
    (infoFetch : Except String VideoInfo)
    (summarize : String → Option String → Except String String)
    (errs : ℕ → String) (now : ℚ) (tid url videoId : String)
    (startTime endTime : Option ℚ)
    (hurl : url ≠ "") (hvid : videoId ≠ "")
    (hall : ∀ i, apiFetch i = Except.error (errs i)) :
    ∃ r : TaskRecord,
      getProgressVal
        (singleJobRun true sliceTtl apiFetch infoFetch summarize true
          (Except.ok videoId) now tid url none startTime endTime).prog now tid = some r ∧
      r.status = "completed" ∧
      r.errors = [] ∧
      r.result = some
        { is_playlist := false, playlist_title := none
          videos := [some (buildVideoData videoId ("Video " ++ videoId) (watchUrl videoId)
            none none (some ("Failed to fetch transcript for " ++ videoId)))]
          error := none } := by
  obtain ⟨st1, hmiss⟩ := fetchMissPath_fail sliceTtl apiFetch infoFetch errs now videoId
    startTime endTime (emptyCache TransVal 3600) hall
  have hfetch : fetchTranscriptWithInfo true sliceTtl apiFetch infoFetch
      (emptyCache TransVal 3600) now videoId startTime endTime =
      (Except.error ("Failed to fetch transcript for " ++ videoId), st1) := by
    rw [fetchTWI_cold true sliceTtl apiFetch infoFetch now videoId startTime endTime hvid,
      hmiss]
  have hpv : processVideo true sliceTtl apiFetch infoFetch summarize
      (emptyCache TransVal 3600) now videoId none startTime endTime =
      ({ is_playlist := false, playlist_title := none
         videos := [some (buildVideoData videoId ("Video " ++ videoId) (watchUrl videoId)
           none none (some ("Failed to fetch transcript for " ++ videoId)))]
         error := none }, st1) := by
    rw [processVideo, hfetch]
  have hpvp : processVideoOrPlaylist true sliceTtl apiFetch infoFetch summarize true
      (Except.ok videoId)
      { prog := submitTask (emptyCache TaskRecord 3600) now tid url
        trans := emptyCache TransVal 3600 } now url none (some tid) startTime endTime =
      ({ is_playlist := false, playlist_title := none
         videos := [some (buildVideoData videoId ("Video " ++ videoId) (watchUrl videoId)
           none none (some ("Failed to fetch transcript for " ++ videoId)))]
         error := none },
       { prog := submitTask (emptyCache TaskRecord 3600) now tid url, trans := st1 }) := by
    rw [processVideoOrPlaylist]
    rw [if_neg hurl]
    rw [if_neg (by simp)]
    rw [if_neg (by simp)]
    dsimp only
    rw [hpv]
  rw [singleJobRun, backgroundTaskRunner]
  rw [if_neg (by simp)]
  dsimp only
  rw [hpvp]
  dsimp only
  rw [taskRunnerFinalize]
  rw [if_neg (by simp [pyTruthyOptStr])]
  have hfresh : progressPresent (submitTask (emptyCache TaskRecord 3600) now tid url) now tid
      { task_id := tid, description := some ("Processing URL: " ++ url), total_items := 1
        completed_items := 0, current_item_details := some "", status := "pending"
        start_time := some now, last_update := now, errors := [], result := none } := by
    rw [submitTask, initializeProgress]
    exact progressPresent_set _ now tid _ (by norm_num [emptyCache])
  rw [markTaskCompleted_of_present _ now tid _ _ hfresh]
  refine ⟨{ task_id := tid, description := some ("Processing URL: " ++ url), total_items := 1
            completed_items := 0, current_item_details := some "", status := "completed"
            start_time := some now, last_update := now, errors := []
            result := some
              { is_playlist := false, playlist_title := none
                videos := [some (buildVideoData videoId ("Video " ++ videoId) (watchUrl videoId)
                  none none (some ("Failed to fetch transcript for " ++ videoId)))]
                error := none } }, ?_, rfl, rfl, rfl⟩
  rw [getProgressVal, progressPresent_set _ now tid _
    (by norm_num [submitTask, initializeProgress, setCachedData_defaultTtl, emptyCache])]

theorem playlistLoop_tracker (now : ℚ) (tid : String) (n : ℕ)
    (itemResult : ℕ → VideoData) (htid : tid ≠ "") :
    ∀ (order : List ℕ) (prog : CacheState TaskRecord) (r : TaskRecord)
      (slots : List (Option VideoData)) (cc : ℕ),
    progressPresent prog now tid r → 0 ≤ prog.defaultTtl →
    ∃ r', progressPresent (playlistLoop (some tid) now n itemResult order prog slots cc).1
        now tid r' ∧
      0 ≤ (playlistLoop (some tid) now n itemResult order prog slots cc).1.defaultTtl ∧
      r'.errors = r.errors ++ loopErrors itemResult now n order cc ∧
      r'.result = r.result
  | [], prog, r, slots, cc, hpres, httl =>
      ⟨r, hpres, httl, by simp [loopErrors], rfl⟩
  | i :: rest, prog, r, slots, cc, hpres, httl => by
      rw [playlistLoop]
      rw [if_pos htid]
      rw [updateProgress_of_present prog now tid r 1 _ _ hpres]
      have httl2 : (0:ℚ) ≤ (setCachedData prog now progressNamespace tid
          (updatedRecord r now 1
            (some ("Processed " ++ toString (cc + 1) ++ "/" ++ toString n ++ " videos"))
            (itemResult i).error) none).defaultTtl := by
        rw [setCachedData_defaultTtl]; exact httl
      obtain ⟨r', hp', ht', he', hr'⟩ := playlistLoop_tracker now tid n itemResult htid rest
        _ _ (slots.set i (some (itemResult i))) (cc + 1)
        (progressPresent_set prog now tid _ httl) httl2
      refine ⟨r', hp', ht', ?_, ?_⟩
      · rw [he', updatedRecord_errors, loopErrors]
        have hdet : pyOrStr (some ("Processed " ++ toString (cc + 1) ++ "/" ++ toString n ++ " videos"))
            "Unknown item" = "Processed " ++ toString (cc + 1) ++ "/" ++ toString n ++ " videos" := by
          rw [pyOrStr]
          rw [if_neg]
          intro hc
          exact append_ne_empty_left "Processed "
            (toString (cc + 1) ++ "/" ++ toString n ++ " videos") (by simp) (by
              have := hc
              simp only [String.append_assoc] at this ⊢
              exact this)
        rw [hdet, List.append_assoc]
      · rw [hr', updatedRecord_result]

theorem loopErrors_map (itemResult : ℕ → VideoData) (now : ℚ) (n : ℕ) :
    ∀ (order : List ℕ) (cc : ℕ),
    (loopErrors itemResult now n order cc).map (·.error) =
      order.filterMap (fun i =>
        if pyTruthyOptStr (itemResult i).error then some ((itemResult i).error.getD "")
        else none)
  | [], _ => rfl
  | i :: rest, cc => by
      rw [loopErrors, List.filterMap_cons, List.map_append,
        loopErrors_map itemResult now n rest (cc + 1)]
      by_cases h : pyTruthyOptStr (itemResult i).error
      · rw [if_pos h, if_pos h]
        rfl
      · rw [if_neg h, if_neg h]
        rfl

theorem filterMap_none_all {α β : Type} (g : α → Option β) :
    ∀ (l : List α), (∀ i ∈ l, g i = none) → l.filterMap g = []
  | [], _ => rfl
  | i :: rest, h => by
      rw [List.filterMap_cons, h i (List.mem_cons_self i rest)]
      exact filterMap_none_all g rest (fun x hx => h x (List.mem_cons_of_mem i hx))

theorem filterMap_single {α β : Type} [DecidableEq α] (g : α → Option β) (j : α) (msg : β) :
    ∀ (l : List α), l.Nodup → j ∈ l → (∀ i ∈ l, i ≠ j → g i = none) →
    g j = some msg → l.filterMap g = [msg]
  | [], _, hj, _, _ => absurd hj (List.not_mem_nil j)
  | i :: rest, hnd, hj, hnone, hgj => by
      rw [List.filterMap_cons]
      by_cases hij : i = j
      · subst hij
        rw [hgj]
        have hrest : rest.filterMap g = [] := by
          apply filterMap_none_all
          intro x hx
          apply hnone x (List.mem_cons_of_mem i hx)
          intro hxj
          subst hxj
          exact (List.nodup_cons.mp hnd).1 hx
        rw [hrest]
      · rw [hnone i (List.mem_cons_self i rest) hij]
        exact filterMap_single g j msg rest (List.nodup_cons.mp hnd).2
          (by
            rcases List.mem_cons.mp hj with h | h
            · exact absurd h.symm hij
            · exact h)
          (fun x hx hxj => hnone x (List.mem_cons_of_mem i hx) hxj) hgj

theorem playlistJob_partial_failure (itemResult : ℕ → VideoData) (ids : List String)
    (title : String) (order : List ℕ) (now : ℚ) (tid url : String) (j : ℕ) (msg : String)
    (htid : tid ≠ "") (hne : ids.isEmpty = false)
    (hperm : order.Perm (List.range ids.length))
    (hj : j < ids.length)
    (hjerr : (itemResult j).error = some msg) (hmsg : msg ≠ "")
    (hsib : ∀ i, i < ids.length → i ≠ j → (itemResult i).error = none) :
    ∃ r : TaskRecord,
      getProgressVal (playlistJobRun itemResult (Except.ok (ids, title)) order now tid url)
        now tid = some r ∧
      r.status = "completed" ∧
      r.result = some
        { is_playlist := true, playlist_title := some title
          videos := (List.range ids.length).map (fun i => some (itemResult i))
          error := none } ∧
      r.errors.map (·.error) = [msg] := by
  have hfresh : progressPresent
      (initializeProgress (submitTask (emptyCache TaskRecord 3600) now tid url) now tid
        (ids.length : ℤ)
        ("Processing playlist: " ++ title ++ " (" ++ toString ids.length ++ " videos)"))
      now tid
      { task_id := tid
        description := some ("Processing playlist: " ++ title ++ " (" ++ toString ids.length ++ " videos)")
        total_items := (ids.length : ℤ), completed_items := 0
        current_item_details := some "", status := "pending", start_time := some now
        last_update := now, errors := [], result := none } := by
    rw [initializeProgress]
    exact progressPresent_set _ now tid _
      (by norm_num [submitTask, initializeProgress, setCachedData_defaultTtl, emptyCache])
  obtain ⟨r', hp', ht', he', hr'⟩ := playlistLoop_tracker now tid ids.length itemResult htid
    order _ _ (List.replicate ids.length none) 0 hfresh
    (by norm_num [initializeProgress, submitTask, setCachedData_defaultTtl, emptyCache])
  have hslots : (playlistLoop (some tid) now ids.length itemResult order
      (initializeProgress (submitTask (emptyCache TaskRecord 3600) now tid url) now tid
        (ids.length : ℤ)
        ("Processing playlist: " ++ title ++ " (" ++ toString ids.length ++ " videos)"))
      (List.replicate ids.length none) 0).2.1 =
      (List.range ids.length).map (fun i => some (itemResult i)) := by
    rw [playlistLoop_slots, foldl_set_perm_range itemResult ids.length order hperm]
  have hpp : processPlaylist itemResult (Except.ok (ids, title)) order
      (submitTask (emptyCache TaskRecord 3600) now tid url) now (some tid) =
      ({ is_playlist := true, playlist_title := some title
         videos := (List.range ids.length).map (fun i => some (itemResult i))
         error := none },
       (playlistLoop (some tid) now ids.length itemResult order
        (initializeProgress (submitTask (emptyCache TaskRecord 3600) now tid url) now tid
          (ids.length : ℤ)
          ("Processing playlist: " ++ title ++ " (" ++ toString ids.length ++ " videos)"))
        (List.replicate ids.length none) 0).1) := by
    rw [processPlaylist]
    simp only [hne, Bool.false_eq_true, if_false, if_pos htid]
    rw [hslots]
  rw [playlistJobRun]
  rw [hpp]
  rw [taskRunnerFinalize]
  rw [if_neg (by simp [pyTruthyOptStr])]
  rw [markTaskCompleted_of_present _ now tid r' _ hp']
  refine ⟨{ r' with
            status := "completed"
            last_update := now
            result := some
              { is_playlist := true, playlist_title := some title
                videos := (List.range ids.length).map (fun i => some (itemResult i))
                error := none } }, ?_, rfl, rfl, ?_⟩
  · rw [getProgressVal, progressPresent_set _ now tid _ ht']
  · show r'.errors.map (·.error) = [msg]
    rw [he']
    simp only [List.nil_append]
    rw [loopErrors_map]
    apply filterMap_single _ j msg order
      ((hperm.nodup_iff).mpr (List.nodup_range ids.length))
      (hperm.mem_iff.mpr (List.mem_range.mpr hj))
    · intro i hi hij
      have hin : i < ids.length := List.mem_range.mp (hperm.mem_iff.mp hi)
      rw [hsib i hin hij]
      simp [pyTruthyOptStr]
    · rw [hjerr]
      rw [if_pos (by
        simp only [pyTruthyOptStr, Bool.not_eq_true']
        rw [Bool.eq_false_iff]
        intro hc
        exact hmsg ((String.isEmpty_iff msg).mp hc))]
      rfl

/-- C1 (amended): there is no failure asymmetry between job modes.  In a
multi-item job where exactly one item's artifact fetch fails, only that
item's slot carries the error, the siblings' slots hold their results in
input order, the failure is recorded in the task's `errors`, and the
final status is `completed`.  A single-item job whose artifact fetch and
fallback both fail ALSO ends `completed`: the error is recorded in its
only result slot (`process_video` catches the `VideoModelError`, the
returned dictionary has no top-level `"error"` key, so
`background_task_runner` marks the task completed), not `failed` as
claimed. -/
theorem c1_failure_asymmetry :
    (∀ (itemResult : ℕ → VideoData) (ids : List String) (title : String)
       (order : List ℕ) (now : ℚ) (tid url : String) (j : ℕ) (msg : String),
      tid ≠ "" → ids.isEmpty = false → order.Perm (List.range ids.length) →
      j < ids.length → (itemResult j).error = some msg → msg ≠ "" →
      (∀ i, i < ids.length → i ≠ j → (itemResult i).error = none) →
      ∃ r : TaskRecord,
        getProgressVal (playlistJobRun itemResult (Except.ok (ids, title)) order now tid url)
          now tid = some r ∧
        r.status = "completed" ∧
        r.result = some
          { is_playlist := true, playlist_title := some title
            videos := (List.range ids.length).map (fun i => some (itemResult i))
            error := none } ∧
        r.errors.map (·.error) = [msg]) ∧
    (∀ (sliceTtl : ℚ) (apiFetch : ℕ → Except String (Option (List Entry)))
       (infoFetch : Except String VideoInfo)
       (summarize : String → Option String → Except String String)
       (errs : ℕ → String) (now : ℚ) (tid url videoId : String)
       (startTime endTime : Option ℚ),
      url ≠ "" → videoId ≠ "" → (∀ i, apiFetch i = Except.error (errs i)) →
      ∃ r : TaskRecord,
        getProgressVal
          (singleJobRun true sliceTtl apiFetch infoFetch summarize true
            (Except.ok videoId) now tid url none startTime endTime).prog now tid = some r ∧
        r.status = "completed" ∧
        r.errors = [] ∧
        r.result = some
          { is_playlist := false, playlist_title := none
            videos := [some (buildVideoData videoId ("Video " ++ videoId) (watchUrl videoId)
              none none (some ("Failed to fetch transcript for " ++ videoId)))]
            error := none }) := by
  constructor
  · intro itemResult ids title order now tid url j msg htid hne hperm hj hjerr hmsg hsib
    exact playlistJob_partial_failure itemResult ids title order now tid url j msg
      htid hne hperm hj hjerr hmsg hsib
  · intro sliceTtl apiFetch infoFetch summarize errs now tid url videoId startTime endTime
      hurl hvid hall
    exact singleJob_allFail sliceTtl apiFetch infoFetch summarize errs now tid url videoId
      startTime endTime hurl hvid hall

/-- Witness for C1: a 3-item job with item 3 (`"X3"`, index 2) failing
and completion order `[3rd, 1st, 2nd]`; and a single-item job for
`"X1"` with every fetch attempt failing. -/
theorem c1_failure_asymmetry_witness :
    (∃ r : TaskRecord,
      getProgressVal (playlistJobRun
        (fun i => if i = 2 then
          buildVideoData "X3" "Video X3" (watchUrl "X3") none none (some "boom3")
        else
          buildVideoData (toString i) "T" "u" (some "tx") (some "sm") none)
        (Except.ok (["a", "b", "X3"], "PL")) [2, 0, 1] 0 "t" "u") 0 "t" = some r ∧
      r.status = "completed" ∧
      r.result = some
        { is_playlist := true, playlist_title := some "PL"
          videos := (List.range (["a", "b", "X3"] : List String).length).map (fun i => some
            ((fun i => if i = 2 then
              buildVideoData "X3" "Video X3" (watchUrl "X3") none none (some "boom3")
            else
              buildVideoData (toString i) "T" "u" (some "tx") (some "sm") none) i))
          error := none } ∧
      r.errors.map (·.error) = ["boom3"]) ∧
    (∃ r : TaskRecord,
      getProgressVal
        (singleJobRun true 86400 (fun _ => Except.error "boom") (Except.error "nope")
          (fun _ _ => Except.ok "sum") true (Except.ok "X1") 0 "t" "u" none none none).prog
        0 "t" = some r ∧
      r.status = "completed" ∧
      r.errors = [] ∧
      r.result = some
        { is_playlist := false, playlist_title := none
          videos := [some (buildVideoData "X1" ("Video " ++ "X1") (watchUrl "X1")
            none none (some ("Failed to fetch transcript for " ++ "X1")))]
          error := none }) := by
  constructor
  · exact c1_failure_asymmetry.1
      (fun i => if i = 2 then
        buildVideoData "X3" "Video X3" (watchUrl "X3") none none (some "boom3")
      else
        buildVideoData (toString i) "T" "u" (some "tx") (some "sm") none)
      ["a", "b", "X3"] "PL" [2, 0, 1] 0 "t" "u" 2 "boom3"
      (by simp) rfl (by decide) (by norm_num) (by simp [buildVideoData]) (by simp)
      (by
        intro i hi hij
        have h3 : i < 3 := by simpa using hi
        interval_cases i <;> simp_all [buildVideoData])
  · exact c1_failure_asymmetry.2 86400 (fun _ => Except.error "boom") (Except.error "nope")
      (fun _ _ => Except.ok "sum") (fun _ => "boom") 0 "t" "u" "X1" none none
      (by simp) (by simp) (fun _ => rfl)

/-- Counterexample to C1 as stated: the single-item job whose artifact
fetch and fallback both fail ends with status `completed`, not `failed`. -/
theorem c1_counterexample :
    (getProgressVal
      (singleJobRun true 86400 (fun _ => Except.error "boom") (Except.error "nope")
        (fun _ _ => Except.ok "sum") true (Except.ok "X1") 0 "t" "u" none none none).prog
      0 "t").map (·.status) = some "completed" ∧
    (getProgressVal
      (singleJobRun true 86400 (fun _ => Except.error "boom") (Except.error "nope")
        (fun _ _ => Except.ok "sum") true (Except.ok "X1") 0 "t" "u" none none none).prog
      0 "t").map (·.status) ≠ some "failed" := by
  obtain ⟨r, hval, hstat, _, _⟩ := singleJob_allFail 86400 (fun _ => Except.error "boom")
    (Except.error "nope") (fun _ _ => Except.ok "sum") (fun _ => "boom") 0 "t" "u" "X1"
    none none (by simp) (by simp) (fun _ => rfl)
  rw [hval]
  simp [hstat]

end UVS
